import Mathlib

/-!
Verification of the BumpSetCut logic-sandbox pipeline (Python sources under
`logicsandbox/`): the Kalman ball tracker, the ballistics gate, the rally
decider and the segment builder.

Modelling conventions, used throughout:

* Python floats are modelled as exact rationals (`ℚ`); Python ints as `ℕ`
  (with casts to `ℤ` where Python subtraction may go negative).
* `math.sqrt` is not rational-valued, so it is modelled as an uninterpreted
  parameter `sq : ℚ → ℚ` threaded through the tracker definitions; every
  theorem quantifies over all interpretations of `sq`, so it covers in
  particular the behaviour of the real square root on the finitely many
  values arising in any concrete run.
* Python `dict`s (which iterate in insertion order) are modelled as
  association lists in insertion order.
* A Python exception (e.g. an `IndexError` from list indexing, or an
  `AttributeError` from a missing attribute) is modelled by `Option`:
  `none` means the call raises instead of returning.
* `list.sort` / `sorted` (Python's stable sort) is modelled by a stable
  insertion sort `pySortBy`.
-/

/-- Stable insertion of `x` into `l`: `x` is placed before the first element
`y` with `lt y x = false`, i.e. after all elements strictly below it and
before elements with an equal key, matching the placement produced by a
stable sort when `x` originally preceded the elements of `l`. -/
def pyInsertBy (lt : α → α → Bool) (x : α) : List α → List α
  | [] => [x]
  | y :: ys => if lt y x then y :: pyInsertBy lt x ys else x :: y :: ys

/-- Stable insertion sort, modelling Python's stable `sorted`/`list.sort`
with a strict key comparison `lt`. -/
def pySortBy (lt : α → α → Bool) : List α → List α
  | [] => []
  | x :: xs => pyInsertBy lt x (pySortBy lt xs)

/-- Python's `enumerate`, pairing each list element with its index
starting from `n`. -/
def pyEnumFrom (n : ℕ) : List α → List (ℕ × α)
  | [] => []
  | x :: xs => (n, x) :: pyEnumFrom (n + 1) xs

/-- Python's `enumerate` from index 0. -/
def pyEnum (l : List α) : List (ℕ × α) := pyEnumFrom 0 l

/-- Configuration record: `ProcessorConfig` from `processor_config.py`.
All float fields are modelled as `ℚ`, int fields as `ℕ`.  The debug /
visualization / performance-tuning fields (colors, strides, fps caps,
history caps, ...) are not read by any of the embedded components and are
omitted here.  Note that the source dataclass defines a field
`continuity_score_weight` but NO field named `trajectory_score_weight`;
this matters for `BallisticsGate.validate_trajectory`, which reads the
latter. -/
structure ProcessorConfig where
  confidence_threshold : ℚ
  -- Kalman ball tracker
  process_noise_position : ℚ
  process_noise_velocity : ℚ
  measurement_noise : ℚ
  association_gate_threshold : ℚ
  max_missed_frames : ℕ
  initial_velocity_threshold : ℚ
  min_tracking_confidence : ℚ
  confidence_decay_rate : ℚ
  confidence_boost_on_detection : ℚ
  -- Ballistics gate
  enable_enhanced_physics : Bool
  min_points_for_fit : ℕ
  max_trajectory_error : ℚ
  trajectory_confidence_threshold : ℚ
  gravity_acceleration : ℚ
  max_horizontal_velocity : ℚ
  max_vertical_velocity : ℚ
  min_flight_time : ℚ
  physics_score_weight : ℚ
  smoothness_score_weight : ℚ
  continuity_score_weight : ℚ
  min_physics_score : ℚ
  -- Rally decider
  rally_start_threshold : ℚ
  rally_end_threshold : ℚ
  rally_hysteresis_time : ℚ
  min_rally_duration : ℚ
  max_gap_in_rally : ℚ
  rally_cooldown_period : ℚ
  contact_detection_threshold : ℚ
  min_contact_separation : ℚ
  velocity_change_threshold : ℚ
  -- Segment builder
  rally_start_padding : ℚ
  rally_end_padding : ℚ
  min_segment_duration : ℚ
  max_segment_gap : ℚ
  min_detections_per_second : ℚ
  segment_quality_threshold : ℚ
  detection_consistency_weight : ℚ
  physics_consistency_weight : ℚ

/-- Default values of `ProcessorConfig` (the dataclass field defaults). -/
def defaultConfig : ProcessorConfig where
  confidence_threshold := 0.3
  process_noise_position := 1.0
  process_noise_velocity := 0.5
  measurement_noise := 10.0
  association_gate_threshold := 50.0
  max_missed_frames := 15
  initial_velocity_threshold := 5.0
  min_tracking_confidence := 0.3
  confidence_decay_rate := 0.95
  confidence_boost_on_detection := 0.1
  enable_enhanced_physics := true
  min_points_for_fit := 5
  max_trajectory_error := 50.0
  trajectory_confidence_threshold := 0.6
  gravity_acceleration := 9.81
  max_horizontal_velocity := 30.0
  max_vertical_velocity := 20.0
  min_flight_time := 0.2
  physics_score_weight := 0.4
  smoothness_score_weight := 0.3
  continuity_score_weight := 0.3
  min_physics_score := 0.5
  rally_start_threshold := 0.7
  rally_end_threshold := 0.3
  rally_hysteresis_time := 2.0
  min_rally_duration := 1.5
  max_gap_in_rally := 1.0
  rally_cooldown_period := 0.5
  contact_detection_threshold := 0.8
  min_contact_separation := 0.3
  velocity_change_threshold := 15.0
  rally_start_padding := 0.5
  rally_end_padding := 0.3
  min_segment_duration := 2.0
  max_segment_gap := 1.5
  min_detections_per_second := 3.0
  segment_quality_threshold := 0.6
  detection_consistency_weight := 0.4
  physics_consistency_weight := 0.6

/-- Time range `TimeRange` from `segment_builder.py`.  The Python field
`end` is called `stop` here because `end` is a Lean keyword. -/
structure TimeRange where
  start : ℚ
  stop : ℚ

namespace TimeRange

/-- Property `duration` of `TimeRange`: `end - start`. -/
def duration (r : TimeRange) : ℚ := r.stop - r.start

end TimeRange

namespace SegmentBuilder

/-- Mutable state of `SegmentBuilder`: `current_start` and `ranges`.
The two pre-roll capping constants set in `__init__` are fixed values in
the source and are embedded as the constants below. -/
structure State where
  current_start : Option ℚ
  ranges : List TimeRange

/-- State of a freshly constructed `SegmentBuilder`. -/
def init : State := { current_start := none, ranges := [] }

/-- `short_segment_threshold` constant from `SegmentBuilder.__init__`. -/
def short_segment_threshold : ℚ := 2.5

/-- `max_preroll_for_short` constant from `SegmentBuilder.__init__`. -/
def max_preroll_for_short : ℚ := 0.5

/-- `SegmentBuilder.reset`. -/
def reset (_s : State) : State := { current_start := none, ranges := [] }

/-- Padding computation of `SegmentBuilder._close_segment`: the padded
range appended to `self.ranges`. -/
def closedRange (cfg : ProcessorConfig) (start stop : ℚ) : TimeRange :=
  let raw_duration := stop - start
  let effective_preroll :=
    if raw_duration < short_segment_threshold then
      min cfg.rally_start_padding max_preroll_for_short
    else cfg.rally_start_padding
  { start := max 0 (start - effective_preroll)
    stop := stop + cfg.rally_end_padding }

/-- `SegmentBuilder._close_segment`: append the padded range. -/
def closeSegment (cfg : ProcessorConfig) (s : State) (start stop : ℚ) : State :=
  { s with ranges := s.ranges ++ [closedRange cfg start stop] }

/-- `SegmentBuilder.append_padded`. -/
def appendPadded (s : State) (start stop : ℚ) : State :=
  { s with ranges := s.ranges ++ [{ start := start, stop := stop }] }

/-- `SegmentBuilder.append_raw`. -/
def appendRaw (cfg : ProcessorConfig) (s : State) (start stop : ℚ) : State :=
  closeSegment cfg s start stop

/-- `SegmentBuilder.observe`. -/
def observe (cfg : ProcessorConfig) (s : State) (is_active : Bool) (time : ℚ) : State :=
  if is_active then
    match s.current_start with
    | none => { s with current_start := some time }
    | some _ => s
  else
    match s.current_start with
    | none => { s with current_start := none }
    | some cs => { closeSegment cfg s cs time with current_start := none }

/-- `SegmentBuilder._gap_between`. -/
def gapBetween (r1 r2 : TimeRange) : ℚ := max 0 (r2.start - r1.stop)

/-- Clamping pass of `finalize`: clamp each range to `[0, video_duration]`
and drop ranges that are not strictly positive afterwards. -/
def clampRanges (video_duration : ℚ) (rs : List TimeRange) : List TimeRange :=
  rs.filterMap (fun r =>
    let start := max 0 r.start
    let stop := min video_duration r.stop
    if start < stop then some { start := start, stop := stop } else none)

/-- Gap-merging pass of `finalize` (single left-to-right pass over the
sorted list); `acc` holds the merged output so far in reverse order, so its
head is Python's `merged_ranges[-1]`. -/
def mergeLoop (cfg : ProcessorConfig) : List TimeRange → List TimeRange → List TimeRange
  | acc, [] => acc.reverse
  | acc, r :: rest =>
    match acc with
    | [] => mergeLoop cfg [r] rest
    | last :: accT =>
      if gapBetween last r ≤ cfg.max_segment_gap then
        mergeLoop cfg ({ start := last.start, stop := max last.stop r.stop } :: accT) rest
      else
        mergeLoop cfg (r :: last :: accT) rest

/-- The pure output pipeline of `finalize` applied to a list of ranges:
clamp, sort by start time (Python's stable sort), merge small gaps, drop
segments shorter than the configured minimum. -/
def finalizePipeline (cfg : ProcessorConfig) (video_duration : ℚ) (rs : List TimeRange) :
    List TimeRange :=
  let clamped := clampRanges video_duration rs
  let sorted := pySortBy (fun a b => decide (a.start < b.start)) clamped
  let merged := mergeLoop cfg [] sorted
  merged.filter (fun r => decide (cfg.min_segment_duration ≤ r.duration))

/-- `SegmentBuilder.finalize`: closes any open segment (mutating the
builder state) and returns the processed time ranges together with the
state after the call. -/
def finalize (cfg : ProcessorConfig) (s : State) (video_duration : ℚ) :
    List TimeRange × State :=
  let s1 :=
    match s.current_start with
    | some cs => { closeSegment cfg s cs video_duration with current_start := none }
    | none => s
  (finalizePipeline cfg video_duration s1.ranges, s1)

/-- One ingestion call on a `SegmentBuilder` (the operations a caller can
interleave before `finalize`). -/
inductive Op where
  | observe (is_active : Bool) (time : ℚ)
  | appendPadded (start stop : ℚ)
  | appendRaw (start stop : ℚ)

/-- Apply one ingestion call. -/
def applyOp (cfg : ProcessorConfig) (s : State) : Op → State
  | .observe a t => observe cfg s a t
  | .appendPadded a b => appendPadded s a b
  | .appendRaw a b => appendRaw cfg s a b

/-- Run a sequence of ingestion calls from the initial state. -/
def runOps (cfg : ProcessorConfig) (ops : List Op) : State :=
  ops.foldl (applyOp cfg) init

end SegmentBuilder

/-- A trajectory point, `TrajectoryPoint` from `ballistics_gate.py`. -/
structure TrajectoryPoint where
  x : ℚ
  y : ℚ
  time : ℚ
  confidence : ℚ

/-- Quadratic fit result, `QuadraticFit` from `ballistics_gate.py`. -/
structure QuadraticFit where
  a : ℚ
  b : ℚ
  c : ℚ
  r_squared : ℚ
  residual_error : ℚ
  point_count : ℕ
  vertex_x : ℚ
  vertex_y : ℚ
  opens_downward : Bool

/-- Physics validation result, `PhysicsValidation` from `ballistics_gate.py`. -/
structure PhysicsValidation where
  is_valid : Bool
  physics_score : ℚ
  trajectory_score : ℚ
  velocity_score : ℚ
  gravity_score : ℚ
  smoothness_score : ℚ
  quadratic_fit : Option QuadraticFit
  max_velocity : ℚ
  gravity_consistency : ℚ
  trajectory_length : ℚ

namespace BallisticsGate

/-- The fixed fully-valid result returned by `validate_trajectory` when
enhanced physics is disabled. -/
def bypassResult : PhysicsValidation where
  is_valid := true
  physics_score := 1
  trajectory_score := 1
  velocity_score := 1
  gravity_score := 1
  smoothness_score := 1
  quadratic_fit := none
  max_velocity := 0
  gravity_consistency := 1
  trajectory_length := 0

/-- `BallisticsGate._create_invalid_result`. -/
def invalidResult : PhysicsValidation where
  is_valid := false
  physics_score := 0
  trajectory_score := 0
  velocity_score := 0
  gravity_score := 0
  smoothness_score := 0
  quadratic_fit := none
  max_velocity := 0
  gravity_consistency := 0
  trajectory_length := 0

/-- `BallisticsGate.validate_trajectory`.

With enhanced physics disabled it returns the fixed bypass result; with
fewer than `min_points_for_fit` points it returns the explicit invalid
result.  Otherwise the source computes the quadratic fit and the four
component scores (lines 100-106) and then evaluates
`self.config.trajectory_score_weight * trajectory_score + ...`
(line 110).  `ProcessorConfig` defines no attribute named
`trajectory_score_weight` (it has `continuity_score_weight` instead), so
this attribute access raises `AttributeError` unconditionally on that
path; the component-score computations before it are side-effect free and
their results are lost.  The raising path is modelled as `none`. -/
def validate_trajectory (cfg : ProcessorConfig) (points : List TrajectoryPoint) :
    Option PhysicsValidation :=
  if cfg.enable_enhanced_physics = false then some bypassResult
  else if points.length < cfg.min_points_for_fit then some invalidResult
  else none

end BallisticsGate

/-- Rally state enumeration, `RallyState` from `rally_decider.py`. -/
inductive RallyState where
  | idle
  | potential
  | active
  | ending
deriving DecidableEq, Repr

/-- A rally state change event, `RallyEvent` from `rally_decider.py`.
The `reason` field (a formatted human-readable string) is omitted: exact
Python float formatting is not representable and no embedded code reads
it back. -/
structure RallyEvent where
  timestamp : ℚ
  old_state : RallyState
  new_state : RallyState
  confidence : ℚ

/-- A detected rally period, `RallyPeriod` from `rally_decider.py`. -/
structure RallyPeriod where
  start_time : ℚ
  end_time : ℚ
  duration : ℚ
  max_confidence : ℚ
  avg_confidence : ℚ
  estimated_contacts : ℕ
  quality_score : ℚ

/-- Decision context, `RallyContext` from `rally_decider.py`. -/
structure RallyContext where
  current_time : ℚ
  detection_confidence : ℚ
  tracking_confidence : ℚ
  physics_validation : Option PhysicsValidation
  velocity_magnitude : ℚ
  time_since_last_detection : ℚ
  consecutive_detections : ℕ

namespace RallyDecider

/-- Mutable state of `RallyDecider` (every attribute assigned in
`__init__`, plus the lazily created `last_contact_time` attribute, which
is `none` until the first counted contact, modelling Python's
`hasattr` check). -/
structure State where
  current_state : RallyState
  state_start_time : ℚ
  last_state_change_time : ℚ
  rally_confidence_history : List (ℚ × ℚ)
  last_high_confidence_time : ℚ
  last_detection_time : ℚ
  current_rally_start : ℚ
  current_rally_confidence_sum : ℚ
  current_rally_confidence_count : ℕ
  current_rally_max_confidence : ℚ
  estimated_contacts : ℕ
  completed_rallies : List RallyPeriod
  state_change_events : List RallyEvent
  last_velocity_magnitude : ℚ
  velocity_history : List (ℚ × ℚ)
  last_contact_time : Option ℚ

/-- State of a freshly constructed `RallyDecider`. -/
def init : State where
  current_state := .idle
  state_start_time := 0
  last_state_change_time := 0
  rally_confidence_history := []
  last_high_confidence_time := 0
  last_detection_time := 0
  current_rally_start := 0
  current_rally_confidence_sum := 0
  current_rally_confidence_count := 0
  current_rally_max_confidence := 0
  estimated_contacts := 0
  completed_rallies := []
  state_change_events := []
  last_velocity_magnitude := 0
  velocity_history := []
  last_contact_time := none

/-- `RallyDecider.reset`: restores `current_state`, `state_start_time`,
clears the confidence history, completed rallies and events, and zeroes
`estimated_contacts` — and touches nothing else (in particular the
velocity-tracking fields and `last_contact_time` keep their values). -/
def reset (s : State) : State :=
  { s with
    current_state := .idle
    state_start_time := 0
    rally_confidence_history := []
    completed_rallies := []
    state_change_events := []
    estimated_contacts := 0 }

/-- `RallyDecider._update_confidence_history`. -/
def updateConfidenceHistory (ctx : RallyContext) (s : State) : State :=
  let h := s.rally_confidence_history ++ [(ctx.current_time, ctx.detection_confidence)]
  let h := if 100 < h.length then h.tail else h
  let s := { s with rally_confidence_history := h }
  let s :=
    if 0.7 < ctx.detection_confidence then
      { s with last_high_confidence_time := ctx.current_time }
    else s
  if 0 < ctx.detection_confidence then
    { s with last_detection_time := ctx.current_time }
  else s

/-- `RallyDecider._update_velocity_tracking`. -/
def updateVelocityTracking (cfg : ProcessorConfig) (ctx : RallyContext) (s : State) : State :=
  let current_vel := ctx.velocity_magnitude
  let current_time := ctx.current_time
  let vh := s.velocity_history ++ [(current_time, current_vel)]
  let vh := if 50 < vh.length then vh.tail else vh
  let s := { s with velocity_history := vh }
  let s :=
    if 0 < s.last_velocity_magnitude ∧
        cfg.velocity_change_threshold < |current_vel - s.last_velocity_magnitude| then
      match s.last_contact_time with
      | none =>
          { s with estimated_contacts := s.estimated_contacts + 1
                   last_contact_time := some current_time }
      | some lct =>
          if cfg.min_contact_separation < current_time - lct then
            { s with estimated_contacts := s.estimated_contacts + 1
                     last_contact_time := some current_time }
          else s
    else s
  { s with last_velocity_magnitude := current_vel }

/-- `RallyDecider._calculate_temporal_confidence`. -/
def calculateTemporalConfidence (s : State) (current_time : ℚ) : ℚ :=
  if s.rally_confidence_history = [] then 0
  else
    let recent := s.rally_confidence_history.filterMap
      (fun tc => if current_time - tc.1 ≤ 2 then some tc.2 else none)
    if recent = [] then 0
    else
      let avg_recent_conf := recent.sum / recent.length
      let consistency_bonus :=
        if 5 ≤ recent.length then
          ((recent.filter (fun c => decide (0.6 < c))).length : ℚ) / recent.length * 0.2
        else 0
      min 1 (avg_recent_conf + consistency_bonus)

/-- `RallyDecider._calculate_motion_confidence`; the velocity band
`[10, 200]` pixels/frame is fixed in the source. -/
def calculateMotionConfidence (velocity_magnitude : ℚ) : ℚ :=
  if velocity_magnitude = 0 then 0
  else if 10 ≤ velocity_magnitude ∧ velocity_magnitude ≤ 200 then 1
  else if velocity_magnitude < 10 then velocity_magnitude / 10
  else max 0 (1 - (velocity_magnitude - 200) / 200)

/-- `RallyDecider._calculate_rally_confidence` with the fixed weights
0.4 / 0.2 / 0.2 / 0.1 / 0.1 from the source. -/
def calculateRallyConfidence (s : State) (ctx : RallyContext) : ℚ :=
  let detection_conf := if 0 < ctx.detection_confidence then ctx.detection_confidence else 0
  let tracking_conf := if 0 < ctx.tracking_confidence then ctx.tracking_confidence else 0
  let physics_conf :=
    match ctx.physics_validation with
    | some pv => if pv.is_valid then pv.physics_score else 0
    | none => 0
  let temporal_conf := calculateTemporalConfidence s ctx.current_time
  let motion_conf := calculateMotionConfidence ctx.velocity_magnitude
  let rally_confidence :=
    0.4 * detection_conf + 0.2 * tracking_conf + 0.2 * physics_conf +
      0.1 * temporal_conf + 0.1 * motion_conf
  max 0 (min 1 rally_confidence)

/-- `RallyDecider._determine_new_state` (the hysteresis transition
function), as a function of the fields it reads: the current state and
its start time, the computed rally confidence, and the context's current
time and time since last detection. -/
def determineNewState (cfg : ProcessorConfig) (current_state : RallyState)
    (state_start_time rally_confidence current_time time_since_last_detection : ℚ) :
    RallyState :=
  let time_in_state := current_time - state_start_time
  match current_state with
  | .idle =>
      if cfg.rally_end_threshold < rally_confidence then .potential else .idle
  | .potential =>
      if cfg.rally_start_threshold ≤ rally_confidence then .active
      else if rally_confidence ≤ cfg.rally_end_threshold ∧ 1 < time_in_state then .idle
      else .potential
  | .active =>
      if rally_confidence ≤ cfg.rally_end_threshold ∧
          cfg.max_gap_in_rally < time_since_last_detection then .ending
      else .active
  | .ending =>
      if cfg.rally_start_threshold ≤ rally_confidence then .active
      else if cfg.rally_cooldown_period < time_in_state then .idle
      else .ending

/-- `RallyDecider._start_rally`. -/
def startRally (timestamp : ℚ) (s : State) : State :=
  { s with
    current_rally_start := timestamp
    current_rally_confidence_sum := 0
    current_rally_confidence_count := 0
    current_rally_max_confidence := 0
    estimated_contacts := 0 }

/-- `RallyDecider._calculate_rally_quality`. -/
def calculateRallyQuality (estimated_contacts : ℕ) (duration avg_confidence : ℚ) : ℚ :=
  let duration_score := min 1 (duration / 10)
  let confidence_score := avg_confidence
  let contact_score := min 1 ((estimated_contacts : ℚ) / 10)
  duration_score * 0.3 + confidence_score * 0.4 + contact_score * 0.3

/-- `RallyDecider._end_rally`. -/
def endRally (cfg : ProcessorConfig) (timestamp : ℚ) (s : State) : State :=
  if 0 < s.current_rally_confidence_count then
    let duration := timestamp - s.current_rally_start
    let avg_confidence :=
      s.current_rally_confidence_sum / s.current_rally_confidence_count
    if cfg.min_rally_duration ≤ duration then
      let rally : RallyPeriod :=
        { start_time := s.current_rally_start
          end_time := timestamp
          duration := duration
          max_confidence := s.current_rally_max_confidence
          avg_confidence := avg_confidence
          estimated_contacts := s.estimated_contacts
          quality_score := calculateRallyQuality s.estimated_contacts duration avg_confidence }
      { s with completed_rallies := s.completed_rallies ++ [rally] }
    else s
  else s

/-- `RallyDecider._transition_to_state`. -/
def transitionToState (cfg : ProcessorConfig) (new_state : RallyState)
    (confidence timestamp : ℚ) (s : State) : State :=
  let old_state := s.current_state
  let event : RallyEvent :=
    { timestamp := timestamp, old_state := old_state, new_state := new_state
      confidence := confidence }
  let s := { s with state_change_events := s.state_change_events ++ [event] }
  let s :=
    if new_state = .active ∧ old_state ≠ .active then startRally timestamp s
    else if old_state = .active ∧ new_state ≠ .active then endRally cfg timestamp s
    else s
  { s with
    current_state := new_state
    state_start_time := timestamp
    last_state_change_time := timestamp }

/-- `RallyDecider._update_rally_tracking`. -/
def updateRallyTracking (rally_confidence : ℚ) (s : State) : State :=
  if s.current_state = .active then
    { s with
      current_rally_confidence_sum := s.current_rally_confidence_sum + rally_confidence
      current_rally_confidence_count := s.current_rally_confidence_count + 1
      current_rally_max_confidence :=
        max s.current_rally_max_confidence rally_confidence }
  else s

/-- `RallyDecider.update`: returns the state after the call together with
the returned `RallyState`. -/
def update (cfg : ProcessorConfig) (s : State) (ctx : RallyContext) :
    State × RallyState :=
  let s1 := updateConfidenceHistory ctx s
  let s2 := updateVelocityTracking cfg ctx s1
  let rally_confidence := calculateRallyConfidence s2 ctx
  let new_state := determineNewState cfg s2.current_state s2.state_start_time
    rally_confidence ctx.current_time ctx.time_since_last_detection
  let s3 :=
    if new_state ≠ s2.current_state then
      transitionToState cfg new_state rally_confidence ctx.current_time s2
    else s2
  let s4 := updateRallyTracking rally_confidence s3
  (s4, s4.current_state)

/-- Run a sequence of `update` calls, collecting the returned states. -/
def run (cfg : ProcessorConfig) : State → List RallyContext → State × List RallyState
  | s, [] => (s, [])
  | s, ctx :: rest =>
    let p := update cfg s ctx
    let q := run cfg p.1 rest
    (q.1, p.2 :: q.2)

/-- The state-machine portion of `update` (lines 111-117 of
`rally_decider.py`) driven directly by a rally-confidence value: apply
`_determine_new_state` and, on a state change, the
`current_state`/`state_start_time` bookkeeping of `_transition_to_state`.
The machine state is the pair (current state, its start time); one input
is a triple (rally confidence, current time, time since last detection). -/
def stateMachineStep (cfg : ProcessorConfig) (p : RallyState × ℚ) (inp : ℚ × ℚ × ℚ) :
    RallyState × ℚ :=
  let new_state := determineNewState cfg p.1 p.2 inp.1 inp.2.1 inp.2.2
  if new_state ≠ p.1 then (new_state, inp.2.1) else p

/-- Iterated `stateMachineStep`, collecting the state after each input. -/
def stateMachineRun (cfg : ProcessorConfig) : RallyState × ℚ → List (ℚ × ℚ × ℚ) →
    List RallyState
  | _, [] => []
  | p, inp :: rest =>
    let p' := stateMachineStep cfg p inp
    p'.1 :: stateMachineRun cfg p' rest

end RallyDecider

/-- A 2-vector of rationals (a measurement / innovation). -/
structure V2 where
  x : ℚ
  y : ℚ

/-- A 4-vector of rationals: the Kalman state `[x, y, vx, vy]`. -/
structure V4 where
  x : ℚ
  y : ℚ
  vx : ℚ
  vy : ℚ

/-- A 2×2 rational matrix. -/
structure M2 where
  a11 : ℚ
  a12 : ℚ
  a21 : ℚ
  a22 : ℚ

/-- A 4×4 rational matrix (row-major fields `bij`). -/
structure M4 where
  b11 : ℚ
  b12 : ℚ
  b13 : ℚ
  b14 : ℚ
  b21 : ℚ
  b22 : ℚ
  b23 : ℚ
  b24 : ℚ
  b31 : ℚ
  b32 : ℚ
  b33 : ℚ
  b34 : ℚ
  b41 : ℚ
  b42 : ℚ
  b43 : ℚ
  b44 : ℚ

/-- A 4×2 rational matrix (the Kalman gain). -/
structure M42 where
  k11 : ℚ
  k12 : ℚ
  k21 : ℚ
  k22 : ℚ
  k31 : ℚ
  k32 : ℚ
  k41 : ℚ
  k42 : ℚ

namespace M4

/-- Matrix product of two 4×4 matrices. -/
def mul (A B : M4) : M4 where
  b11 := A.b11 * B.b11 + A.b12 * B.b21 + A.b13 * B.b31 + A.b14 * B.b41
  b12 := A.b11 * B.b12 + A.b12 * B.b22 + A.b13 * B.b32 + A.b14 * B.b42
  b13 := A.b11 * B.b13 + A.b12 * B.b23 + A.b13 * B.b33 + A.b14 * B.b43
  b14 := A.b11 * B.b14 + A.b12 * B.b24 + A.b13 * B.b34 + A.b14 * B.b44
  b21 := A.b21 * B.b11 + A.b22 * B.b21 + A.b23 * B.b31 + A.b24 * B.b41
  b22 := A.b21 * B.b12 + A.b22 * B.b22 + A.b23 * B.b32 + A.b24 * B.b42
  b23 := A.b21 * B.b13 + A.b22 * B.b23 + A.b23 * B.b33 + A.b24 * B.b43
  b24 := A.b21 * B.b14 + A.b22 * B.b24 + A.b23 * B.b34 + A.b24 * B.b44
  b31 := A.b31 * B.b11 + A.b32 * B.b21 + A.b33 * B.b31 + A.b34 * B.b41
  b32 := A.b31 * B.b12 + A.b32 * B.b22 + A.b33 * B.b32 + A.b34 * B.b42
  b33 := A.b31 * B.b13 + A.b32 * B.b23 + A.b33 * B.b33 + A.b34 * B.b43
  b34 := A.b31 * B.b14 + A.b32 * B.b24 + A.b33 * B.b34 + A.b34 * B.b44
  b41 := A.b41 * B.b11 + A.b42 * B.b21 + A.b43 * B.b31 + A.b44 * B.b41
  b42 := A.b41 * B.b12 + A.b42 * B.b22 + A.b43 * B.b32 + A.b44 * B.b42
  b43 := A.b41 * B.b13 + A.b42 * B.b23 + A.b43 * B.b33 + A.b44 * B.b43
  b44 := A.b41 * B.b14 + A.b42 * B.b24 + A.b43 * B.b34 + A.b44 * B.b44

/-- Transpose of a 4×4 matrix. -/
def transpose (A : M4) : M4 where
  b11 := A.b11
  b12 := A.b21
  b13 := A.b31
  b14 := A.b41
  b21 := A.b12
  b22 := A.b22
  b23 := A.b32
  b24 := A.b42
  b31 := A.b13
  b32 := A.b23
  b33 := A.b33
  b34 := A.b43
  b41 := A.b14
  b42 := A.b24
  b43 := A.b34
  b44 := A.b44

/-- Entrywise sum of two 4×4 matrices. -/
def add (A B : M4) : M4 where
  b11 := A.b11 + B.b11
  b12 := A.b12 + B.b12
  b13 := A.b13 + B.b13
  b14 := A.b14 + B.b14
  b21 := A.b21 + B.b21
  b22 := A.b22 + B.b22
  b23 := A.b23 + B.b23
  b24 := A.b24 + B.b24
  b31 := A.b31 + B.b31
  b32 := A.b32 + B.b32
  b33 := A.b33 + B.b33
  b34 := A.b34 + B.b34
  b41 := A.b41 + B.b41
  b42 := A.b42 + B.b42
  b43 := A.b43 + B.b43
  b44 := A.b44 + B.b44

/-- Diagonal 4×4 matrix. -/
def diag (d1 d2 d3 d4 : ℚ) : M4 where
  b11 := d1
  b12 := 0
  b13 := 0
  b14 := 0
  b21 := 0
  b22 := d2
  b23 := 0
  b24 := 0
  b31 := 0
  b32 := 0
  b33 := d3
  b34 := 0
  b41 := 0
  b42 := 0
  b43 := 0
  b44 := d4

end M4

namespace M2

/-- Determinant of a 2×2 matrix. -/
def det (S : M2) : ℚ := S.a11 * S.a22 - S.a12 * S.a21

/-- `np.linalg.inv` for a 2×2 matrix: raises (`none`) exactly when the
matrix is singular, which in exact arithmetic means determinant zero. -/
def inv? (S : M2) : Option M2 :=
  if S.det = 0 then none
  else some
    { a11 := S.a22 / S.det, a12 := -S.a12 / S.det
      a21 := -S.a21 / S.det, a22 := S.a11 / S.det }

/-- Sum of the squares of the entries (squared Frobenius norm). -/
def frobSq (S : M2) : ℚ := S.a11 ^ 2 + S.a12 ^ 2 + S.a21 ^ 2 + S.a22 ^ 2

/-- `np.linalg.pinv` for a 2×2 matrix, in exact arithmetic: the
Moore–Penrose pseudo-inverse.  For an invertible matrix it is the
inverse; for a nonzero rank-1 matrix `M` it is `Mᵀ / ‖M‖_F²`; for the
zero matrix it is zero. -/
def pinv (S : M2) : M2 :=
  if S.det = 0 then
    if S.frobSq = 0 then { a11 := 0, a12 := 0, a21 := 0, a22 := 0 }
    else
      { a11 := S.a11 / S.frobSq, a12 := S.a21 / S.frobSq
        a21 := S.a12 / S.frobSq, a22 := S.a22 / S.frobSq }
  else
    { a11 := S.a22 / S.det, a12 := -S.a12 / S.det
      a21 := -S.a21 / S.det, a22 := S.a11 / S.det }

/-- Quadratic form `vᵀ · S · v`. -/
def quadForm (S : M2) (v : V2) : ℚ :=
  v.x * (S.a11 * v.x + S.a12 * v.y) + v.y * (S.a21 * v.x + S.a22 * v.y)

end M2

/-- Ball track state, `TrackingState` from `kalman_ball_tracker.py`. -/
structure TrackingState where
  state : V4
  covariance : M4
  confidence : ℚ
  last_detection_frame : ℕ
  prediction_count : ℕ
  track_id : ℕ
  age : ℕ

namespace KalmanBallTracker

/-- A detection `(x, y, confidence)`. -/
def Detection := ℚ × ℚ × ℚ

/-- Mutable state of `KalmanBallTracker`: the track dictionary (a Python
dict in insertion order, modelled as a list), the id counter, the frame
counter, and the lazily created `_current_detections` attribute (set at
the end of every call by `_create_new_tracks`; `none` models the
attribute not existing yet, i.e. `hasattr` returning `False`). -/
structure State where
  tracks : List TrackingState
  next_track_id : ℕ
  frame_count : ℕ
  current_detections : Option (List Detection)

/-- State of a freshly constructed `KalmanBallTracker`. -/
def init : State where
  tracks := []
  next_track_id := 0
  frame_count := 0
  current_detections := none

/-- `KalmanBallTracker.reset`: clears the tracks and zeroes the id and
frame counters.  The `_current_detections` attribute is not touched. -/
def reset (s : State) : State :=
  { s with tracks := [], next_track_id := 0, frame_count := 0 }

/-- The state transition matrix `F` (constant-velocity model, `dt = 1`). -/
def Fmat : M4 := { M4.diag 1 1 1 1 with b13 := 1, b24 := 1 }

/-- The process noise covariance `Q`. -/
def Qmat (cfg : ProcessorConfig) : M4 :=
  M4.diag cfg.process_noise_position cfg.process_noise_position
    cfg.process_noise_velocity cfg.process_noise_velocity

/-- `H · P · Hᵀ` for the observation matrix `H = [[1,0,0,0],[0,1,0,0]]`:
the top-left 2×2 block of `P`. -/
def hpht (P : M4) : M2 :=
  { a11 := P.b11, a12 := P.b12, a21 := P.b21, a22 := P.b22 }

/-- The innovation covariance `S = H·P·Hᵀ + R`, with
`R = measurement_noise · I₂`. -/
def innovationCov (cfg : ProcessorConfig) (P : M4) : M2 :=
  { a11 := P.b11 + cfg.measurement_noise, a12 := P.b12
    a21 := P.b21, a22 := P.b22 + cfg.measurement_noise }

/-- `P · Hᵀ`: the first two columns of `P`. -/
def pht (P : M4) : M42 :=
  { k11 := P.b11, k12 := P.b12, k21 := P.b21, k22 := P.b22
    k31 := P.b31, k32 := P.b32, k41 := P.b41, k42 := P.b42 }

/-- Product of a 4×2 matrix with a 2×2 matrix. -/
def mul42 (K : M42) (S : M2) : M42 where
  k11 := K.k11 * S.a11 + K.k12 * S.a21
  k12 := K.k11 * S.a12 + K.k12 * S.a22
  k21 := K.k21 * S.a11 + K.k22 * S.a21
  k22 := K.k21 * S.a12 + K.k22 * S.a22
  k31 := K.k31 * S.a11 + K.k32 * S.a21
  k32 := K.k31 * S.a12 + K.k32 * S.a22
  k41 := K.k41 * S.a11 + K.k42 * S.a21
  k42 := K.k41 * S.a12 + K.k42 * S.a22

/-- Application of a 4×2 matrix to a 2-vector. -/
def apply42 (K : M42) (v : V2) : V4 where
  x := K.k11 * v.x + K.k12 * v.y
  y := K.k21 * v.x + K.k22 * v.y
  vx := K.k31 * v.x + K.k32 * v.y
  vy := K.k41 * v.x + K.k42 * v.y

/-- `I₄ - K·H` for `H = [[1,0,0,0],[0,1,0,0]]`: since `K·H` has the
columns of `K` in its first two columns and zeros elsewhere, this is the
identity with `K`'s entries subtracted in the first two columns. -/
def iMinusKH (K : M42) : M4 where
  b11 := 1 - K.k11
  b12 := -K.k12
  b13 := 0
  b14 := 0
  b21 := -K.k21
  b22 := 1 - K.k22
  b23 := 0
  b24 := 0
  b31 := -K.k31
  b32 := -K.k32
  b33 := 1
  b34 := 0
  b41 := -K.k41
  b42 := -K.k42
  b43 := 0
  b44 := 1

/-- One track's prediction step from `_predict_tracks`: `x' = F·x`,
`P' = F·P·Fᵀ + Q`, increment `prediction_count` and `age`. -/
def predictTrack (cfg : ProcessorConfig) (t : TrackingState) : TrackingState :=
  { t with
    state :=
      { x := t.state.x + t.state.vx
        y := t.state.y + t.state.vy
        vx := t.state.vx
        vy := t.state.vy }
    covariance := ((Fmat.mul t.covariance).mul Fmat.transpose).add (Qmat cfg)
    prediction_count := t.prediction_count + 1
    age := t.age + 1 }

/-- `KalmanBallTracker._mahalanobis_distance`: the innovation
`y = z - H·x`, the innovation covariance `S`, and
`sqrt(yᵀ · S⁻¹ · y)`; if `np.linalg.inv` raises (singular `S`), fall
back to the Euclidean distance `sqrt(yᵀ · y)`.  `math.sqrt` is the
uninterpreted parameter `sq`. -/
def mahalanobisDistance (sq : ℚ → ℚ) (cfg : ProcessorConfig) (t : TrackingState)
    (zx zy : ℚ) : ℚ :=
  let y : V2 := { x := zx - t.state.x, y := zy - t.state.y }
  let S := innovationCov cfg t.covariance
  match S.inv? with
  | some Sinv => sq (Sinv.quadForm y)
  | none => sq (y.x * y.x + y.y * y.y)

/-- The gated candidate list built by the first loop of
`_associate_detections`, in Python dict insertion order (tracks in
insertion order, detections by index): all pairs
`((track_id, det_idx), distance)` with distance below the gate
threshold.  (The `det_idx in used_detections` check in this loop is dead
code: `used_detections` is still empty while the dictionary is built.) -/
def assocCandidates (sq : ℚ → ℚ) (cfg : ProcessorConfig) (tracks : List TrackingState)
    (dets : List Detection) : List ((ℕ × ℕ) × ℚ) :=
  tracks.flatMap (fun tr =>
    (pyEnum dets).filterMap (fun d =>
      let distance := mahalanobisDistance sq cfg tr d.2.1 d.2.2.1
      if distance < cfg.association_gate_threshold then
        some ((tr.track_id, d.1), distance)
      else none))

/-- The greedy nearest-neighbour pass of `_associate_detections` over the
distance-sorted pair list: keep a pair iff its track is not yet
associated and its detection is not yet used.  The accumulator is the
association dict in insertion order. -/
def greedyMatch : List ((ℕ × ℕ) × ℚ) → List (ℕ × ℕ) → List (ℕ × ℕ)
  | [], acc => acc
  | (p, _) :: rest, acc =>
    if (acc.any (fun q => q.1 == p.1)) || (acc.any (fun q => q.2 == p.2)) then
      greedyMatch rest acc
    else
      greedyMatch rest (acc ++ [p])

/-- `KalmanBallTracker._associate_detections`: gate, sort by ascending
distance (stable, like Python's `sorted`), and match greedily. -/
def associateDetections (sq : ℚ → ℚ) (cfg : ProcessorConfig)
    (tracks : List TrackingState) (dets : List Detection) : List (ℕ × ℕ) :=
  greedyMatch (pySortBy (fun a b => decide (a.2 < b.2)) (assocCandidates sq cfg tracks dets)) []

/-- The standard Kalman correction applied to one track by
`_update_tracks`, for a measurement `z = (zx, zy)`:
innovation `y = z - H·x`, `S = H·P·Hᵀ + R`, gain `K = P·Hᵀ·pinv(S)`,
`x' = x + K·y`, `P' = (I - K·H)·P`; the prediction counter is reset and
`last_detection_frame` is set to the current frame. -/
def kalmanCorrect (cfg : ProcessorConfig) (frame_count : ℕ) (t : TrackingState)
    (zx zy : ℚ) : TrackingState :=
  let y : V2 := { x := zx - t.state.x, y := zy - t.state.y }
  let S := innovationCov cfg t.covariance
  let K := mul42 (pht t.covariance) S.pinv
  let Ky := apply42 K y
  { t with
    state :=
      { x := t.state.x + Ky.x
        y := t.state.y + Ky.y
        vx := t.state.vx + Ky.vx
        vy := t.state.vy + Ky.vy }
    covariance := (iMinusKH K).mul t.covariance
    prediction_count := 0
    last_detection_frame := frame_count }

/-- `KalmanBallTracker._update_tracks`: for each associated pair, correct
the matched track with the detection taken from `_current_detections` —
which still holds the PREVIOUS call's detection list, since
`_create_new_tracks` assigns it only after this step.  If the attribute
does not exist yet, the body is skipped; if the stored list is shorter
than the detection index, the Python list indexing raises `IndexError`
(modelled as `none`). -/
def updateTracksGo (cfg : ProcessorConfig) (cds : Option (List Detection))
    (frame_count : ℕ) : List (ℕ × ℕ) → List TrackingState → Option (List TrackingState)
  | [], trs => some trs
  | (tid, didx) :: rest, trs =>
    match cds with
    | none => updateTracksGo cfg cds frame_count rest trs
    | some l =>
      match l.get? didx with
      | none => none
      | some d =>
        updateTracksGo cfg cds frame_count rest
          (trs.map (fun t =>
            if t.track_id = tid then kalmanCorrect cfg frame_count t d.1 d.2.1 else t))

/-- `KalmanBallTracker._create_new_tracks` (minus the
`_current_detections` assignment, handled by the caller): walk the
detections with their indices; each unassociated detection with
confidence at or above `min_tracking_confidence` spawns a new track with
the next id, zero initial velocity and covariance `100·I₄`. -/
def createNewTracksGo (cfg : ProcessorConfig) (frame_count : ℕ) (assocIdxs : List ℕ) :
    List (ℕ × Detection) → ℕ → List TrackingState → List TrackingState × ℕ
  | [], nid, trs => (trs, nid)
  | (i, d) :: rest, nid, trs =>
    if i ∉ assocIdxs ∧ cfg.min_tracking_confidence ≤ d.2.2 then
      createNewTracksGo cfg frame_count assocIdxs rest (nid + 1)
        (trs ++ [{ state := { x := d.1, y := d.2.1, vx := 0, vy := 0 }
                   covariance := M4.diag 100 100 100 100
                   confidence := d.2.2
                   last_detection_frame := frame_count
                   prediction_count := 0
                   track_id := nid
                   age := 0 }])
    else
      createNewTracksGo cfg frame_count assocIdxs rest nid trs

/-- `KalmanBallTracker._cleanup_tracks`: remove tracks whose frames since
last detection exceed `max_missed_frames`, or whose confidence is below
0.1 (`elif`, i.e. a disjunction). -/
def cleanupTracks (cfg : ProcessorConfig) (frame_count : ℕ)
    (trs : List TrackingState) : List TrackingState :=
  trs.filter (fun t =>
    decide (¬((cfg.max_missed_frames : ℤ) < (frame_count : ℤ) - (t.last_detection_frame : ℤ) ∨
      t.confidence < 0.1)))

/-- `KalmanBallTracker._update_confidence` for one track: geometric
decay, additive boost when detected this frame (prediction count zero),
then clamp to `[0, 1]`. -/
def updateConfidenceStep (cfg : ProcessorConfig) (t : TrackingState) : TrackingState :=
  let c := t.confidence * cfg.confidence_decay_rate
  let c := if t.prediction_count = 0 then min 1 (c + cfg.confidence_boost_on_detection) else c
  { t with confidence := max 0 (min 1 c) }

/-- The association a call of `update` computes: `_associate_detections`
applied to the freshly predicted tracks. -/
def callAssoc (sq : ℚ → ℚ) (cfg : ProcessorConfig) (s : State) (dets : List Detection) :
    List (ℕ × ℕ) :=
  associateDetections sq cfg (s.tracks.map (predictTrack cfg)) dets

/-- `KalmanBallTracker.update`: increment the frame counter, predict,
associate, correct matched tracks (against the stale
`_current_detections`), spawn tracks for unassociated detections (and
store the current detections), retire old/weak tracks, refresh
confidences, and return the track list. -/
def update (sq : ℚ → ℚ) (cfg : ProcessorConfig) (s : State) (dets : List Detection) :
    Option (State × List TrackingState) :=
  let fc := s.frame_count + 1
  let predicted := s.tracks.map (predictTrack cfg)
  let assoc := associateDetections sq cfg predicted dets
  match updateTracksGo cfg s.current_detections fc assoc predicted with
  | none => none
  | some corrected =>
    let created :=
      createNewTracksGo cfg fc (assoc.map Prod.snd) (pyEnum dets) s.next_track_id corrected
    let cleaned := cleanupTracks cfg fc created.1
    let final := cleaned.map (updateConfidenceStep cfg)
    some
      ({ tracks := final
         next_track_id := created.2
         frame_count := fc
         current_detections := some dets }, final)

/-- Run a sequence of `update` calls, collecting the returned track
lists; a raised exception (`none`) aborts the run. -/
def run (sq : ℚ → ℚ) (cfg : ProcessorConfig) :
    State → List (List Detection) → Option (State × List (List TrackingState))
  | s, [] => some (s, [])
  | s, dets :: rest =>
    match update sq cfg s dets with
    | none => none
    | some p =>
      match run sq cfg p.1 rest with
      | none => none
      | some q => some (q.1, p.2 :: q.2)

end KalmanBallTracker

/-- The identity interpretation of `math.sqrt`, used to instantiate the
uninterpreted square-root parameter in concrete witnesses.  At every
value it is applied to in those witnesses, the guards and orderings it
feeds agree with those produced by the real square root. -/
def sqrtDemo : ℚ → ℚ := fun q => q

/-- Five trajectory points (a demo input reaching the enhanced-physics
path of `validate_trajectory`). -/
def c2Points : List TrajectoryPoint :=
  [⟨0, 0, 0, 0.8⟩, ⟨1, 1, 0.1, 0.8⟩, ⟨2, 0, 0.2, 0.8⟩, ⟨3, -3, 0.3, 0.8⟩, ⟨4, -8, 0.4, 0.8⟩]

/-- The hysteresis demo inputs: the spec's confidence sequence
`[0, 0.5, 0.8, 0.9, 0.85, 0.25, 0.1, 0]` at times `0,1,2,3,4,5,6,8`,
where the time since the last detection exceeds the configured
`max_gap_in_rally = 1.0` only from the `0.1` sample onward (gap 2), and
the final sample comes `2 > max_gap_in_rally` seconds after the
`Ending` transition. -/
def c4Inputs : List (ℚ × ℚ × ℚ) :=
  [(0, 0, 0.1), (0.5, 1, 0.1), (0.8, 2, 0.1), (0.9, 3, 0.1), (0.85, 4, 0.1),
   (0.25, 5, 0.1), (0.1, 6, 2), (0, 8, 2)]

/-- The predicted track at the tracker's second `update` call in the
stale-detection demo run: position `(0,0)`, covariance
`F·(100·I)·Fᵀ + Q`, one frame of prediction. -/
def c1PredTrack : TrackingState where
  state := { x := 0, y := 0, vx := 0, vy := 0 }
  covariance :=
    { b11 := 201, b12 := 0, b13 := 100, b14 := 0
      b21 := 0, b22 := 201, b23 := 0, b24 := 100
      b31 := 100, b32 := 0, b33 := 201/2, b34 := 0
      b41 := 0, b42 := 100, b43 := 0, b44 := 201/2 }
  confidence := 191/200
  last_detection_frame := 1
  prediction_count := 1
  track_id := 0
  age := 1

/-- Pre-reset decider inputs: two idle frames whose velocities (10 then
50) register a ball contact at time 100. -/
def ctxA1 : RallyContext := ⟨99, 0, 0, none, 10, 5, 0⟩

/-- Second pre-reset decider input. -/
def ctxA2 : RallyContext := ⟨100, 0, 0, none, 50, 5, 0⟩

/-- Post-reset decider inputs: a short rally (potential at `t=0`, active
from `t=0.5`, ending at `t=2.5`) with one velocity jump at `t=0.7` that a
fresh decider counts as a contact. -/
def seqB : List RallyContext :=
  [⟨0, 1, 1, none, 50, 0.1, 1⟩, ⟨0.5, 1, 1, none, 50, 0.1, 2⟩,
   ⟨0.7, 1, 1, none, 100, 0.1, 3⟩, ⟨2.5, 0, 0, none, 100, 2, 0⟩]

/-- Intermediate decider state in the C3 demo runs. -/
def c3FreshB1 : RallyDecider.State :=
  ⟨.potential, 0, 0, [(0, 1)], 0, 0, 0, 0, 0, 0, 0, [], [⟨0, .idle, .potential, 4/5⟩], 50, [(0, 50)], none⟩

/-- Intermediate decider state in the C3 demo runs. -/
def c3FreshB2 : RallyDecider.State :=
  ⟨.active, 1/2, 1/2, [(0, 1), (1/2, 1)], 1/2, 1/2, 1/2, 4/5, 1, 4/5, 0, [], [⟨0, .idle, .potential, 4/5⟩, ⟨1/2, .potential, .active, 4/5⟩], 50, [(0, 50), (1/2, 50)], none⟩

/-- Intermediate decider state in the C3 demo runs. -/
def c3FreshB3 : RallyDecider.State :=
  ⟨.active, 1/2, 1/2, [(0, 1), (1/2, 1), (7/10, 1)], 7/10, 7/10, 1/2, 8/5, 2, 4/5, 1, [], [⟨0, .idle, .potential, 4/5⟩, ⟨1/2, .potential, .active, 4/5⟩], 100, [(0, 50), (1/2, 50), (7/10, 100)], some (7/10)⟩

/-- Intermediate decider state in the C3 demo runs. -/
def c3FreshB4 : RallyDecider.State :=
  ⟨.ending, 5/2, 5/2, [(0, 1), (1/2, 1), (7/10, 1), (5/2, 0)], 7/10, 7/10, 1/2, 8/5, 2, 4/5, 1, [⟨1/2, 5/2, 2, 4/5, 4/5, 1, 41/100⟩], [⟨0, .idle, .potential, 4/5⟩, ⟨1/2, .potential, .active, 4/5⟩, ⟨5/2, .active, .ending, 1/6⟩], 100, [(0, 50), (1/2, 50), (7/10, 100), (5/2, 100)], some (7/10)⟩

/-- Intermediate decider state in the C3 demo runs. -/
def c3StateA1 : RallyDecider.State :=
  ⟨.idle, 0, 0, [(99, 0)], 0, 0, 0, 0, 0, 0, 0, [], [], 10, [(99, 10)], none⟩

/-- Intermediate decider state in the C3 demo runs. -/
def c3StateA2 : RallyDecider.State :=
  ⟨.idle, 0, 0, [(99, 0), (100, 0)], 0, 0, 0, 0, 0, 0, 1, [], [], 50, [(99, 10), (100, 50)], some (100)⟩

/-- Intermediate decider state in the C3 demo runs. -/
def c3PostB1 : RallyDecider.State :=
  ⟨.potential, 0, 0, [(0, 1)], 0, 0, 0, 0, 0, 0, 0, [], [⟨0, .idle, .potential, 4/5⟩], 50, [(99, 10), (100, 50), (0, 50)], some (100)⟩

/-- Intermediate decider state in the C3 demo runs. -/
def c3PostB2 : RallyDecider.State :=
  ⟨.active, 1/2, 1/2, [(0, 1), (1/2, 1)], 1/2, 1/2, 1/2, 4/5, 1, 4/5, 0, [], [⟨0, .idle, .potential, 4/5⟩, ⟨1/2, .potential, .active, 4/5⟩], 50, [(99, 10), (100, 50), (0, 50), (1/2, 50)], some (100)⟩

/-- Intermediate decider state in the C3 demo runs. -/
def c3PostB3 : RallyDecider.State :=
  ⟨.active, 1/2, 1/2, [(0, 1), (1/2, 1), (7/10, 1)], 7/10, 7/10, 1/2, 8/5, 2, 4/5, 0, [], [⟨0, .idle, .potential, 4/5⟩, ⟨1/2, .potential, .active, 4/5⟩], 100, [(99, 10), (100, 50), (0, 50), (1/2, 50), (7/10, 100)], some (100)⟩

/-- Intermediate decider state in the C3 demo runs. -/
def c3PostB4 : RallyDecider.State :=
  ⟨.ending, 5/2, 5/2, [(0, 1), (1/2, 1), (7/10, 1), (5/2, 0)], 7/10, 7/10, 1/2, 8/5, 2, 4/5, 0, [⟨1/2, 5/2, 2, 4/5, 4/5, 0, 19/50⟩], [⟨0, .idle, .potential, 4/5⟩, ⟨1/2, .potential, .active, 4/5⟩, ⟨5/2, .active, .ending, 1/6⟩], 100, [(99, 10), (100, 50), (0, 50), (1/2, 50), (7/10, 100), (5/2, 100)], some (100)⟩


/-- Tracker state after the first demo call. -/
def c1State1 : KalmanBallTracker.State :=
  ⟨[⟨⟨0, 0, 0, 0⟩, M4.diag 100 100 100 100, 191/200, 1, 0, 0, 0⟩], 1, 1, some [(0, 0, 9/10)]⟩

/-- Tracker state after the second demo call: the track was corrected with
the measurement `(0,0)` taken from the FIRST call's detection list, so its
position is unchanged. -/
def c1State2 : KalmanBallTracker.State :=
  ⟨[⟨⟨0, 0, 0, 0⟩, ⟨2010/211, 0, 1000/211, 0, 0, 2010/211, 0, 1000/211, 1000/211, 0, 22411/422, 0, 0, 1000/211, 0, 22411/422⟩, 1, 2, 0, 0, 1⟩], 1, 2, some [(1, 1, 9/10)]⟩

/-- Tracker state after one `update` call on a fresh tracker with the
single detection `(0, 0, 0.5)`. -/
def c7State : KalmanBallTracker.State :=
  ⟨[⟨⟨0, 0, 0, 0⟩, M4.diag 100 100 100 100, 23/40, 1, 0, 0, 0⟩], 1, 1, some [(0, 0, 1/2)]⟩

namespace KalmanBallTracker

/-- Well-formedness of a tracker state: distinct track ids, all below the
id counter, and no last-detection frame in the future. -/
def Wf (s : State) : Prop :=
  (s.tracks.map TrackingState.track_id).Nodup ∧
  (∀ t ∈ s.tracks, t.track_id < s.next_track_id) ∧
  (∀ t ∈ s.tracks, t.last_detection_frame ≤ s.frame_count)

end KalmanBallTracker

/-- The default configuration with `max_missed_frames` lowered to zero,
so that a single missed frame retires a track. -/
def cfg9 : ProcessorConfig := { defaultConfig with max_missed_frames := 0 }

/-- Tracker state after one `update` on a fresh tracker under `cfg9` with
the single detection `(0, 0, 0.9)`. -/
def c9S : KalmanBallTracker.State :=
  ⟨[⟨⟨0, 0, 0, 0⟩, M4.diag 100 100 100 100, 191/200, 1, 0, 0, 0⟩], 1, 1, some [(0, 0, 9/10)]⟩

/-- Result of running `[[]]` (one detection-free frame) from `c9S` under
`cfg9`: the track is retired. -/
def c9R : KalmanBallTracker.State × List (List TrackingState) :=
  (⟨[], 1, 2, some []⟩, [[]])

/-- Result of one further detection-free `update` from `c9R.1`. -/
def c9R2 : KalmanBallTracker.State × List TrackingState :=
  (⟨[], 1, 3, some []⟩, [])

/-- The track spawned by a fresh tracker from the detection `(0, 0, 0.9)`
under the default configuration. -/
def c10TrackA : TrackingState :=
  ⟨⟨0, 0, 0, 0⟩, M4.diag 100 100 100 100, 191/200, 1, 0, 0, 0⟩

/-- Tracker state after that first call. -/
def c10SA : KalmanBallTracker.State := ⟨[c10TrackA], 1, 1, some [(0, 0, 9/10)]⟩

/-- The same track one detection-free frame later: predicted covariance,
decayed confidence. -/
def c10TrackB : TrackingState :=
  ⟨⟨0, 0, 0, 0⟩,
    ⟨201, 0, 100, 0, 0, 201, 0, 100, 100, 0, 201/2, 0, 0, 100, 0, 201/2⟩,
    3629/4000, 1, 1, 0, 1⟩

/-- Tracker state after the second call. -/
def c10SB : KalmanBallTracker.State := ⟨[c10TrackB], 1, 2, some []⟩

/-- Claim C6: `finalize` is idempotent — for every `SegmentBuilder` state
and every `video_duration`, calling `finalize` twice in a row with no
intervening `observe`/`append` calls returns the identical list both
times. -/
theorem c6_finalize_idempotent (cfg : ProcessorConfig) (s : SegmentBuilder.State)
    (video_duration : ℚ) :
    (SegmentBuilder.finalize cfg (SegmentBuilder.finalize cfg s video_duration).2
        video_duration).1 =
      (SegmentBuilder.finalize cfg s video_duration).1 := by
  cases h : s.current_start <;>
    simp [SegmentBuilder.finalize, h]

/-- Claim C2 (code bug): with enhanced physics enabled and at least
`min_points_for_fit` trajectory points, `validate_trajectory` does not
return a `PhysicsValidation` at all — it raises `AttributeError`
(modelled as `none`), because it reads `config.trajectory_score_weight`
and `ProcessorConfig` has no such field. -/
theorem c2_validate_trajectory_raises_attribute_error :
    BallisticsGate.validate_trajectory defaultConfig c2Points = none ∧
    defaultConfig.enable_enhanced_physics = true ∧
    defaultConfig.min_points_for_fit ≤ c2Points.length := by
  refine ⟨rfl, rfl, by norm_num [c2Points, defaultConfig]⟩

/-- Claim C4: with the default thresholds `0.7`/`0.3`, feeding the
rally-confidence sequence `[0, 0.5, 0.8, 0.9, 0.85, 0.25, 0.1, 0]` to
the hysteresis state machine (starting in Idle, with the detection gap
exceeding `max_gap_in_rally` only from the `0.1` sample onward, and the
final value held past the gap) yields
`Idle, Potential, Active, Active, Active, Active, Ending, Idle`. -/
theorem c4_hysteresis_state_trace :
    RallyDecider.stateMachineRun defaultConfig (.idle, 0) c4Inputs =
      [.idle, .potential, .active, .active, .active, .active, .ending, .idle] := by
  norm_num [RallyDecider.stateMachineRun, RallyDecider.stateMachineStep,
    RallyDecider.determineNewState, c4Inputs, defaultConfig]
  simp
  norm_num

set_option maxHeartbeats 2000000 in
theorem c3_rally_decider_reset_not_fresh :
    ((RallyDecider.run defaultConfig
        (RallyDecider.reset
          (RallyDecider.run defaultConfig RallyDecider.init [ctxA1, ctxA2]).1)
        seqB).1.completed_rallies.map (fun r => r.estimated_contacts)) = [0] ∧
    ((RallyDecider.run defaultConfig RallyDecider.init seqB).1.completed_rallies.map
      (fun r => r.estimated_contacts)) = [1] ∧
    (RallyDecider.run defaultConfig
        (RallyDecider.reset
          (RallyDecider.run defaultConfig RallyDecider.init [ctxA1, ctxA2]).1)
        seqB).1.completed_rallies ≠
      (RallyDecider.run defaultConfig RallyDecider.init seqB).1.completed_rallies := by
  have hB1 : RallyDecider.update defaultConfig (RallyDecider.init) ⟨0, 1, 1, none, 50, 0.1, 1⟩ = (c3FreshB1, .potential) := by
    norm_num [RallyDecider.update, RallyDecider.updateConfidenceHistory,
      RallyDecider.updateVelocityTracking, RallyDecider.calculateRallyConfidence,
      RallyDecider.calculateTemporalConfidence, RallyDecider.calculateMotionConfidence,
      RallyDecider.determineNewState, RallyDecider.transitionToState, RallyDecider.startRally,
      RallyDecider.endRally, RallyDecider.calculateRallyQuality, RallyDecider.updateRallyTracking,
      RallyDecider.init, defaultConfig, List.filterMap_cons, List.filter_cons, List.sum_cons,
      List.length_cons, List.length_nil, List.sum_nil, List.filterMap_nil, List.filter_nil, c3FreshB1]
    try simp
    try norm_num
    try simp
    try norm_num
  have hB2 : RallyDecider.update defaultConfig (c3FreshB1) ⟨0.5, 1, 1, none, 50, 0.1, 2⟩ = (c3FreshB2, .active) := by
    norm_num [RallyDecider.update, RallyDecider.updateConfidenceHistory,
      RallyDecider.updateVelocityTracking, RallyDecider.calculateRallyConfidence,
      RallyDecider.calculateTemporalConfidence, RallyDecider.calculateMotionConfidence,
      RallyDecider.determineNewState, RallyDecider.transitionToState, RallyDecider.startRally,
      RallyDecider.endRally, RallyDecider.calculateRallyQuality, RallyDecider.updateRallyTracking,
      RallyDecider.init, defaultConfig, List.filterMap_cons, List.filter_cons, List.sum_cons,
      List.length_cons, List.length_nil, List.sum_nil, List.filterMap_nil, List.filter_nil, c3FreshB2, c3FreshB1]
    try simp
    try norm_num
    try simp
    try norm_num
  have hB3 : RallyDecider.update defaultConfig (c3FreshB2) ⟨0.7, 1, 1, none, 100, 0.1, 3⟩ = (c3FreshB3, .active) := by
    norm_num [RallyDecider.update, RallyDecider.updateConfidenceHistory,
      RallyDecider.updateVelocityTracking, RallyDecider.calculateRallyConfidence,
      RallyDecider.calculateTemporalConfidence, RallyDecider.calculateMotionConfidence,
      RallyDecider.determineNewState, RallyDecider.transitionToState, RallyDecider.startRally,
      RallyDecider.endRally, RallyDecider.calculateRallyQuality, RallyDecider.updateRallyTracking,
      RallyDecider.init, defaultConfig, List.filterMap_cons, List.filter_cons, List.sum_cons,
      List.length_cons, List.length_nil, List.sum_nil, List.filterMap_nil, List.filter_nil, c3FreshB3, c3FreshB2]
    try simp
    try norm_num
    try simp
    try norm_num
  have hB4 : RallyDecider.update defaultConfig (c3FreshB3) ⟨2.5, 0, 0, none, 100, 2, 0⟩ = (c3FreshB4, .ending) := by
    norm_num [RallyDecider.update, RallyDecider.updateConfidenceHistory,
      RallyDecider.updateVelocityTracking, RallyDecider.calculateRallyConfidence,
      RallyDecider.calculateTemporalConfidence, RallyDecider.calculateMotionConfidence,
      RallyDecider.determineNewState, RallyDecider.transitionToState, RallyDecider.startRally,
      RallyDecider.endRally, RallyDecider.calculateRallyQuality, RallyDecider.updateRallyTracking,
      RallyDecider.init, defaultConfig, List.filterMap_cons, List.filter_cons, List.sum_cons,
      List.length_cons, List.length_nil, List.sum_nil, List.filterMap_nil, List.filter_nil, c3FreshB4, c3FreshB3]
    try simp
    try norm_num
    try simp
    try norm_num
  have hA1 : RallyDecider.update defaultConfig (RallyDecider.init) ctxA1 = (c3StateA1, .idle) := by
    norm_num [RallyDecider.update, RallyDecider.updateConfidenceHistory,
      RallyDecider.updateVelocityTracking, RallyDecider.calculateRallyConfidence,
      RallyDecider.calculateTemporalConfidence, RallyDecider.calculateMotionConfidence,
      RallyDecider.determineNewState, RallyDecider.transitionToState, RallyDecider.startRally,
      RallyDecider.endRally, RallyDecider.calculateRallyQuality, RallyDecider.updateRallyTracking,
      RallyDecider.init, defaultConfig, List.filterMap_cons, List.filter_cons, List.sum_cons,
      List.length_cons, List.length_nil, List.sum_nil, List.filterMap_nil, List.filter_nil, c3StateA1, ctxA1]
    try simp
    try norm_num
    try simp
    try norm_num
  have hA2 : RallyDecider.update defaultConfig (c3StateA1) ctxA2 = (c3StateA2, .idle) := by
    norm_num [RallyDecider.update, RallyDecider.updateConfidenceHistory,
      RallyDecider.updateVelocityTracking, RallyDecider.calculateRallyConfidence,
      RallyDecider.calculateTemporalConfidence, RallyDecider.calculateMotionConfidence,
      RallyDecider.determineNewState, RallyDecider.transitionToState, RallyDecider.startRally,
      RallyDecider.endRally, RallyDecider.calculateRallyQuality, RallyDecider.updateRallyTracking,
      RallyDecider.init, defaultConfig, List.filterMap_cons, List.filter_cons, List.sum_cons,
      List.length_cons, List.length_nil, List.sum_nil, List.filterMap_nil, List.filter_nil, c3StateA2, c3StateA1, ctxA2]
    try simp
    try norm_num
    try simp
    try norm_num
  have hP1 : RallyDecider.update defaultConfig (RallyDecider.reset c3StateA2) ⟨0, 1, 1, none, 50, 0.1, 1⟩ = (c3PostB1, .potential) := by
    norm_num [RallyDecider.update, RallyDecider.updateConfidenceHistory,
      RallyDecider.updateVelocityTracking, RallyDecider.calculateRallyConfidence,
      RallyDecider.calculateTemporalConfidence, RallyDecider.calculateMotionConfidence,
      RallyDecider.determineNewState, RallyDecider.transitionToState, RallyDecider.startRally,
      RallyDecider.endRally, RallyDecider.calculateRallyQuality, RallyDecider.updateRallyTracking,
      RallyDecider.init, defaultConfig, List.filterMap_cons, List.filter_cons, List.sum_cons,
      List.length_cons, List.length_nil, List.sum_nil, List.filterMap_nil, List.filter_nil, c3PostB1, RallyDecider.reset, c3StateA2]
    try simp
    try norm_num
    try simp
    try norm_num
  have hP2 : RallyDecider.update defaultConfig (c3PostB1) ⟨0.5, 1, 1, none, 50, 0.1, 2⟩ = (c3PostB2, .active) := by
    norm_num [RallyDecider.update, RallyDecider.updateConfidenceHistory,
      RallyDecider.updateVelocityTracking, RallyDecider.calculateRallyConfidence,
      RallyDecider.calculateTemporalConfidence, RallyDecider.calculateMotionConfidence,
      RallyDecider.determineNewState, RallyDecider.transitionToState, RallyDecider.startRally,
      RallyDecider.endRally, RallyDecider.calculateRallyQuality, RallyDecider.updateRallyTracking,
      RallyDecider.init, defaultConfig, List.filterMap_cons, List.filter_cons, List.sum_cons,
      List.length_cons, List.length_nil, List.sum_nil, List.filterMap_nil, List.filter_nil, c3PostB2, c3PostB1]
    try simp
    try norm_num
    try simp
    try norm_num
  have hP3 : RallyDecider.update defaultConfig (c3PostB2) ⟨0.7, 1, 1, none, 100, 0.1, 3⟩ = (c3PostB3, .active) := by
    norm_num [RallyDecider.update, RallyDecider.updateConfidenceHistory,
      RallyDecider.updateVelocityTracking, RallyDecider.calculateRallyConfidence,
      RallyDecider.calculateTemporalConfidence, RallyDecider.calculateMotionConfidence,
      RallyDecider.determineNewState, RallyDecider.transitionToState, RallyDecider.startRally,
      RallyDecider.endRally, RallyDecider.calculateRallyQuality, RallyDecider.updateRallyTracking,
      RallyDecider.init, defaultConfig, List.filterMap_cons, List.filter_cons, List.sum_cons,
      List.length_cons, List.length_nil, List.sum_nil, List.filterMap_nil, List.filter_nil, c3PostB3, c3PostB2]
    try simp
    try norm_num
    try simp
    try norm_num
  have hP4 : RallyDecider.update defaultConfig (c3PostB3) ⟨2.5, 0, 0, none, 100, 2, 0⟩ = (c3PostB4, .ending) := by
    norm_num [RallyDecider.update, RallyDecider.updateConfidenceHistory,
      RallyDecider.updateVelocityTracking, RallyDecider.calculateRallyConfidence,
      RallyDecider.calculateTemporalConfidence, RallyDecider.calculateMotionConfidence,
      RallyDecider.determineNewState, RallyDecider.transitionToState, RallyDecider.startRally,
      RallyDecider.endRally, RallyDecider.calculateRallyQuality, RallyDecider.updateRallyTracking,
      RallyDecider.init, defaultConfig, List.filterMap_cons, List.filter_cons, List.sum_cons,
      List.length_cons, List.length_nil, List.sum_nil, List.filterMap_nil, List.filter_nil, c3PostB4, c3PostB3]
    try simp
    try norm_num
    try simp
    try norm_num
  have hPost : (RallyDecider.run defaultConfig
      (RallyDecider.reset (RallyDecider.run defaultConfig RallyDecider.init [ctxA1, ctxA2]).1)
      seqB).1 = c3PostB4 := by
    simp only [RallyDecider.run, seqB, hA1, hA2, hP1, hP2, hP3, hP4]
  have hFresh : (RallyDecider.run defaultConfig RallyDecider.init seqB).1 = c3FreshB4 := by
    simp only [RallyDecider.run, seqB, hB1, hB2, hB3, hB4]
  refine ⟨by rw [hPost]; simp [c3PostB4], by rw [hFresh]; simp [c3FreshB4], ?_⟩
  rw [hPost, hFresh]
  simp [c3PostB4, c3FreshB4]

set_option maxHeartbeats 2000000 in
theorem c1_update_uses_previous_call_detections :
    (KalmanBallTracker.run sqrtDemo defaultConfig KalmanBallTracker.init
        [[(0, 0, 0.9)], [(1, 1, 0.9)]]).map
      (fun r => r.2.map (fun l => l.map (fun t => (t.state.x, t.state.y)))) =
      some [[(0, 0)], [(0, 0)]] ∧
    (KalmanBallTracker.run sqrtDemo defaultConfig KalmanBallTracker.init
        [[(0, 0, 0.9)]]).map
      (fun r => r.1.tracks.map (KalmanBallTracker.predictTrack defaultConfig)) =
      some [c1PredTrack] ∧
    (KalmanBallTracker.kalmanCorrect defaultConfig 2 c1PredTrack 1 1).state.x = 201 / 211 ∧
    (201 / 211 : ℚ) ≠ 0 ∧
    KalmanBallTracker.run sqrtDemo defaultConfig KalmanBallTracker.init
        [[(0, 0, 0.9)], [(1000, 1000, 0.9), (0.5, 0.5, 0.9)]] = none := by
  have h1 : KalmanBallTracker.update sqrtDemo defaultConfig KalmanBallTracker.init
      [(0, 0, 0.9)] = some (c1State1, c1State1.tracks) := by
    norm_num [KalmanBallTracker.update, KalmanBallTracker.predictTrack,
      KalmanBallTracker.associateDetections, KalmanBallTracker.assocCandidates,
      KalmanBallTracker.mahalanobisDistance, KalmanBallTracker.innovationCov,
      M2.inv?, M2.det, M2.pinv, M2.frobSq, M2.quadForm,
      KalmanBallTracker.greedyMatch, pySortBy, pyInsertBy, pyEnum, pyEnumFrom,
      KalmanBallTracker.updateTracksGo, KalmanBallTracker.kalmanCorrect,
      KalmanBallTracker.pht, KalmanBallTracker.mul42, KalmanBallTracker.apply42,
      KalmanBallTracker.iMinusKH, M4.mul, M4.transpose, M4.add, M4.diag,
      KalmanBallTracker.Fmat, KalmanBallTracker.Qmat, KalmanBallTracker.createNewTracksGo,
      KalmanBallTracker.cleanupTracks, KalmanBallTracker.updateConfidenceStep,
      KalmanBallTracker.init, defaultConfig, sqrtDemo, List.flatMap_cons, List.flatMap_nil,
      List.filterMap_cons, List.filterMap_nil, List.filter_cons, List.filter_nil, List.get?, c1State1]
    try simp
    try norm_num
    try simp
    try norm_num
  have h2 : KalmanBallTracker.update sqrtDemo defaultConfig c1State1
      [(1, 1, 0.9)] = some (c1State2, c1State2.tracks) := by
    norm_num [KalmanBallTracker.update, KalmanBallTracker.predictTrack,
      KalmanBallTracker.associateDetections, KalmanBallTracker.assocCandidates,
      KalmanBallTracker.mahalanobisDistance, KalmanBallTracker.innovationCov,
      M2.inv?, M2.det, M2.pinv, M2.frobSq, M2.quadForm,
      KalmanBallTracker.greedyMatch, pySortBy, pyInsertBy, pyEnum, pyEnumFrom,
      KalmanBallTracker.updateTracksGo, KalmanBallTracker.kalmanCorrect,
      KalmanBallTracker.pht, KalmanBallTracker.mul42, KalmanBallTracker.apply42,
      KalmanBallTracker.iMinusKH, M4.mul, M4.transpose, M4.add, M4.diag,
      KalmanBallTracker.Fmat, KalmanBallTracker.Qmat, KalmanBallTracker.createNewTracksGo,
      KalmanBallTracker.cleanupTracks, KalmanBallTracker.updateConfidenceStep,
      KalmanBallTracker.init, defaultConfig, sqrtDemo, List.flatMap_cons, List.flatMap_nil,
      List.filterMap_cons, List.filterMap_nil, List.filter_cons, List.filter_nil, List.get?, c1State1, c1State2]
    try simp
    try norm_num
    try simp
    try norm_num
  have hcrash : KalmanBallTracker.update sqrtDemo defaultConfig c1State1
      [(1000, 1000, 0.9), (0.5, 0.5, 0.9)] = none := by
    norm_num [KalmanBallTracker.update, KalmanBallTracker.predictTrack,
      KalmanBallTracker.associateDetections, KalmanBallTracker.assocCandidates,
      KalmanBallTracker.mahalanobisDistance, KalmanBallTracker.innovationCov,
      M2.inv?, M2.det, M2.pinv, M2.frobSq, M2.quadForm,
      KalmanBallTracker.greedyMatch, pySortBy, pyInsertBy, pyEnum, pyEnumFrom,
      KalmanBallTracker.updateTracksGo, KalmanBallTracker.kalmanCorrect,
      KalmanBallTracker.pht, KalmanBallTracker.mul42, KalmanBallTracker.apply42,
      KalmanBallTracker.iMinusKH, M4.mul, M4.transpose, M4.add, M4.diag,
      KalmanBallTracker.Fmat, KalmanBallTracker.Qmat, KalmanBallTracker.createNewTracksGo,
      KalmanBallTracker.cleanupTracks, KalmanBallTracker.updateConfidenceStep,
      KalmanBallTracker.init, defaultConfig, sqrtDemo, List.flatMap_cons, List.flatMap_nil,
      List.filterMap_cons, List.filterMap_nil, List.filter_cons, List.filter_nil, List.get?, c1State1]
    try simp
    try norm_num
    try simp
    try norm_num
  refine ⟨?_, ?_, ?_, by norm_num, ?_⟩
  · simp only [KalmanBallTracker.run, h1, h2]
    simp [c1State1, c1State2]
  · simp only [KalmanBallTracker.run, h1]
    norm_num [KalmanBallTracker.predictTrack, M4.mul, M4.transpose, M4.add, M4.diag,
      KalmanBallTracker.Fmat, KalmanBallTracker.Qmat, defaultConfig, c1State1, c1PredTrack]
  · norm_num [KalmanBallTracker.kalmanCorrect, KalmanBallTracker.innovationCov,
      KalmanBallTracker.pht, KalmanBallTracker.mul42, KalmanBallTracker.apply42,
      M2.pinv, M2.det, M2.frobSq, defaultConfig, c1PredTrack]
  · simp only [KalmanBallTracker.run, h1, hcrash]

/-- Claim C7: every track in the list returned by an `update` call has
confidence within `[0, 1]`, whatever the detections' confidences. -/
theorem c7_confidence_in_unit_interval (sq : ℚ → ℚ) (cfg : ProcessorConfig)
    (s : KalmanBallTracker.State) (dets : List KalmanBallTracker.Detection)
    (r : KalmanBallTracker.State × List TrackingState)
    (h : KalmanBallTracker.update sq cfg s dets = some r) :
    ∀ t ∈ r.2, 0 ≤ t.confidence ∧ t.confidence ≤ 1 := by
  simp only [KalmanBallTracker.update] at h
  split at h
  · exact absurd h (by simp)
  · rw [Option.some_inj] at h
    subst h
    intro t ht
    simp only [List.mem_map] at ht
    obtain ⟨u, -, rfl⟩ := ht
    unfold KalmanBallTracker.updateConfidenceStep
    constructor
    · exact le_max_left 0 _
    · exact max_le (by norm_num) (min_le_left 1 _)

/-- Witness for C7 at a concrete call. -/
theorem c7_confidence_in_unit_interval_witness :
    c7State.tracks.all (fun t => decide (0 ≤ t.confidence ∧ t.confidence ≤ 1)) = true := by
  have h := c7_confidence_in_unit_interval sqrtDemo defaultConfig KalmanBallTracker.init
    [(0, 0, 0.5)] (c7State, c7State.tracks) (by
      norm_num [KalmanBallTracker.update, KalmanBallTracker.predictTrack,
        KalmanBallTracker.associateDetections, KalmanBallTracker.assocCandidates,
        KalmanBallTracker.greedyMatch, pySortBy, pyInsertBy, pyEnum, pyEnumFrom,
        KalmanBallTracker.updateTracksGo, KalmanBallTracker.createNewTracksGo,
        KalmanBallTracker.cleanupTracks, KalmanBallTracker.updateConfidenceStep,
        M4.diag, KalmanBallTracker.init, defaultConfig, sqrtDemo, c7State,
        List.flatMap_cons, List.flatMap_nil, List.filterMap_cons, List.filterMap_nil,
        List.filter_cons, List.filter_nil]
      try simp
      try norm_num)
  rw [List.all_eq_true]
  intro t ht
  exact decide_eq_true (h t ht)

/-- The greedy matching pass keeps the accumulated association dict
one-to-one: it only adds a pair whose track id and detection index are
both unused. -/
theorem greedyMatch_nodup (pairs : List ((ℕ × ℕ) × ℚ)) :
    ∀ acc : List (ℕ × ℕ), (acc.map Prod.fst).Nodup → (acc.map Prod.snd).Nodup →
      ((KalmanBallTracker.greedyMatch pairs acc).map Prod.fst).Nodup ∧
      ((KalmanBallTracker.greedyMatch pairs acc).map Prod.snd).Nodup := by
  induction pairs with
  | nil =>
    intro acc h1 h2
    simpa [KalmanBallTracker.greedyMatch] using ⟨h1, h2⟩
  | cons p rest ih =>
    intro acc h1 h2
    obtain ⟨q, d⟩ := p
    rw [KalmanBallTracker.greedyMatch]
    split
    · exact ih acc h1 h2
    · rename_i hg
      rw [Bool.or_eq_true, not_or] at hg
      obtain ⟨hg1, hg2⟩ := hg
      apply ih
      · rw [List.map_append, List.nodup_append]
        refine ⟨h1, by simp, ?_⟩
        intro a ha
        simp only [List.mem_map] at ha
        obtain ⟨x, hx, rfl⟩ := ha
        simp only [List.any_eq_true, not_exists, not_and] at hg1
        have hne := hg1 x hx
        simp only [beq_iff_eq] at hne
        simpa using hne
      · rw [List.map_append, List.nodup_append]
        refine ⟨h2, by simp, ?_⟩
        intro a ha
        simp only [List.mem_map] at ha
        obtain ⟨x, hx, rfl⟩ := ha
        simp only [List.any_eq_true, not_exists, not_and] at hg2
        have hne := hg2 x hx
        simp only [beq_iff_eq] at hne
        simpa using hne

/-- Claim C8: the association computed in an `update` call is a
one-to-one partial matching — no track id appears twice and no detection
index appears twice. -/
theorem c8_association_one_to_one (sq : ℚ → ℚ) (cfg : ProcessorConfig)
    (tracks : List TrackingState) (dets : List KalmanBallTracker.Detection) :
    ((KalmanBallTracker.associateDetections sq cfg tracks dets).map Prod.fst).Nodup ∧
    ((KalmanBallTracker.associateDetections sq cfg tracks dets).map Prod.snd).Nodup := by
  unfold KalmanBallTracker.associateDetections
  exact greedyMatch_nodup _ [] (by simp) (by simp)

/-- Every range surviving the clamping pass lies in `[0, video_duration]`
and is strictly positive. -/
theorem clampRanges_mem {dur : ℚ} {rs : List TimeRange} {r : TimeRange}
    (h : r ∈ SegmentBuilder.clampRanges dur rs) :
    0 ≤ r.start ∧ r.stop ≤ dur ∧ r.start < r.stop := by
  simp only [SegmentBuilder.clampRanges, List.mem_filterMap] at h
  obtain ⟨a, -, ha⟩ := h
  split at ha
  · rename_i hlt
    rw [Option.some_inj] at ha
    subst ha
    exact ⟨le_max_left _ _, min_le_left _ _, hlt⟩
  · exact absurd ha (by simp)

/-- Membership is preserved by stable insertion. -/
theorem mem_pyInsertBy {lt : α → α → Bool} {x a : α} {l : List α} :
    a ∈ pyInsertBy lt x l ↔ a = x ∨ a ∈ l := by
  induction l with
  | nil => simp [pyInsertBy]
  | cons y ys ih =>
    rw [pyInsertBy]
    split
    · rw [List.mem_cons, ih, List.mem_cons]
      tauto
    · rw [List.mem_cons]

/-- Membership is preserved by the stable sort. -/
theorem mem_pySortBy {lt : α → α → Bool} {a : α} {l : List α} :
    a ∈ pySortBy lt l ↔ a ∈ l := by
  induction l with
  | nil => simp [pySortBy]
  | cons x xs ih =>
    rw [pySortBy, mem_pyInsertBy]
    simp [ih]

/-- Bound/positivity and disjointness invariants of the merge pass: if
the gap threshold is nonnegative, every output range satisfies the
bounds and the outputs are chained strictly end-before-start. -/
theorem mergeLoop_props (cfg : ProcessorConfig) (dur : ℚ) (hgap : 0 ≤ cfg.max_segment_gap) :
    ∀ (rest acc : List TimeRange),
      (∀ r ∈ rest, 0 ≤ r.start ∧ r.stop ≤ dur ∧ r.start < r.stop) →
      (∀ r ∈ acc, 0 ≤ r.start ∧ r.stop ≤ dur ∧ r.start < r.stop) →
      List.Chain' (fun a b : TimeRange => b.stop < a.start) acc →
      (∀ r ∈ SegmentBuilder.mergeLoop cfg acc rest,
        0 ≤ r.start ∧ r.stop ≤ dur ∧ r.start < r.stop) ∧
      List.Chain' (fun a b : TimeRange => a.stop < b.start)
        (SegmentBuilder.mergeLoop cfg acc rest) := by
  intro rest
  induction rest with
  | nil =>
    intro acc _ hacc hch
    rw [SegmentBuilder.mergeLoop]
    constructor
    · intro r hr
      exact hacc r (List.mem_reverse.mp hr)
    · rw [List.chain'_reverse]
      exact hch
  | cons r rest ih =>
    intro acc hrest hacc hch
    have hr := hrest r (by simp)
    have hrest' : ∀ x ∈ rest, 0 ≤ x.start ∧ x.stop ≤ dur ∧ x.start < x.stop :=
      fun x hx => hrest x (by simp [hx])
    match acc with
    | [] =>
      rw [SegmentBuilder.mergeLoop]
      exact ih [r] hrest' (by simpa using hr) (by simp)
    | last :: accT =>
      rw [SegmentBuilder.mergeLoop]
      have hlast := hacc last (by simp)
      have haccT : ∀ x ∈ accT, 0 ≤ x.start ∧ x.stop ≤ dur ∧ x.start < x.stop :=
        fun x hx => hacc x (by simp [hx])
      rw [List.chain'_cons'] at hch
      split
      · -- merge with the previous range
        apply ih _ hrest'
        · intro x hx
          rcases List.mem_cons.mp hx with rfl | hx
          · refine ⟨hlast.1, ?_, ?_⟩
            · exact max_le hlast.2.1 hr.2.1
            · exact lt_of_lt_of_le hlast.2.2 (le_max_left _ _)
          · exact haccT x hx
        · rw [List.chain'_cons']
          exact ⟨hch.1, hch.2⟩
      · -- no merge: push a new range
        rename_i hng
        have hgt : cfg.max_segment_gap < SegmentBuilder.gapBetween last r := lt_of_not_ge hng
        have hsep : last.stop < r.start := by
          rcases le_or_lt (r.start - last.stop) 0 with h0 | h0
          · rw [SegmentBuilder.gapBetween, max_eq_left h0] at hgt
            exact absurd hgt (not_lt.mpr hgap)
          · exact sub_pos.mp h0
        apply ih _ hrest'
        · intro x hx
          rcases List.mem_cons.mp hx with rfl | hx
          · exact hr
          · exact hacc x hx
        · refine List.chain'_cons.mpr ⟨hsep, List.chain'_cons'.mpr ⟨hch.1, hch.2⟩⟩

/-- A strictly disjoint chain of positive ranges is pairwise disjoint. -/
theorem chainDisjoint_pairwise :
    ∀ (l : List TimeRange), (∀ r ∈ l, r.start < r.stop) →
      List.Chain' (fun a b : TimeRange => a.stop < b.start) l →
      List.Pairwise (fun a b : TimeRange => a.stop < b.start) l
  | [], _, _ => .nil
  | [x], _, _ => by simp
  | x :: y :: rest, hpos, hch => by
    rw [List.chain'_cons] at hch
    have ih := chainDisjoint_pairwise (y :: rest)
      (fun r hr => hpos r (List.mem_cons_of_mem x hr)) hch.2
    rw [List.pairwise_cons]
    refine ⟨?_, ih⟩
    intro z hz
    rcases List.mem_cons.mp hz with rfl | hz
    · exact hch.1
    · have hyz := (List.pairwise_cons.mp ih).1 z hz
      calc x.stop < y.start := hch.1
        _ < y.stop := hpos y (by simp)
        _ < z.start := hyz

/-- The four invariants of the finalize output pipeline, for any input
range list. -/
theorem finalizePipeline_props (cfg : ProcessorConfig) (dur : ℚ)
    (hgap : 0 ≤ cfg.max_segment_gap) (rs : List TimeRange) :
    (∀ r ∈ SegmentBuilder.finalizePipeline cfg dur rs,
      0 ≤ r.start ∧ r.stop ≤ dur ∧ cfg.min_segment_duration ≤ r.duration) ∧
    (SegmentBuilder.finalizePipeline cfg dur rs).Pairwise
      (fun a b : TimeRange => a.start ≤ b.start) ∧
    (SegmentBuilder.finalizePipeline cfg dur rs).Pairwise
      (fun a b : TimeRange => a.stop ≤ b.start) := by
  have hsorted : ∀ r ∈ pySortBy (fun a b : TimeRange => decide (a.start < b.start))
      (SegmentBuilder.clampRanges dur rs), 0 ≤ r.start ∧ r.stop ≤ dur ∧ r.start < r.stop :=
    fun r hr => clampRanges_mem (mem_pySortBy.mp hr)
  have hmerged := mergeLoop_props cfg dur hgap
    (pySortBy (fun a b : TimeRange => decide (a.start < b.start))
      (SegmentBuilder.clampRanges dur rs)) [] hsorted (by simp) (by simp)
  have hmem : ∀ r ∈ SegmentBuilder.finalizePipeline cfg dur rs,
      (0 ≤ r.start ∧ r.stop ≤ dur ∧ r.start < r.stop) ∧
        cfg.min_segment_duration ≤ r.duration := by
    intro r hr
    simp only [SegmentBuilder.finalizePipeline, List.mem_filter] at hr
    exact ⟨hmerged.1 r hr.1, of_decide_eq_true hr.2⟩
  have hpw : (SegmentBuilder.finalizePipeline cfg dur rs).Pairwise
      (fun a b : TimeRange => a.stop < b.start) := by
    have hpwMerged := chainDisjoint_pairwise _ (fun r hr => (hmerged.1 r hr).2.2) hmerged.2
    simp only [SegmentBuilder.finalizePipeline]
    exact hpwMerged.sublist (List.filter_sublist _)
  refine ⟨fun r hr => ⟨(hmem r hr).1.1, (hmem r hr).1.2.1, (hmem r hr).2⟩, ?_, ?_⟩
  · refine hpw.imp_of_mem ?_
    intro a b ha hb hab
    exact le_of_lt (lt_trans (hmem a ha).1.2.2 hab)
  · exact hpw.imp le_of_lt

/-- Claim C5: for every sequence of `observe`/`append` calls and every
`video_duration`, with a nonnegative configured merge gap, the list
returned by `finalize` is sorted by start time, pairwise non-overlapping,
contained in `[0, video_duration]`, and every range's duration is at
least the configured minimum segment duration. -/
theorem c5_finalize_invariants (cfg : ProcessorConfig) (ops : List SegmentBuilder.Op)
    (dur : ℚ) (hgap : 0 ≤ cfg.max_segment_gap) :
    (∀ r ∈ (SegmentBuilder.finalize cfg (SegmentBuilder.runOps cfg ops) dur).1,
      0 ≤ r.start ∧ r.stop ≤ dur ∧ cfg.min_segment_duration ≤ r.duration) ∧
    (SegmentBuilder.finalize cfg (SegmentBuilder.runOps cfg ops) dur).1.Pairwise
      (fun a b : TimeRange => a.start ≤ b.start) ∧
    (SegmentBuilder.finalize cfg (SegmentBuilder.runOps cfg ops) dur).1.Pairwise
      (fun a b : TimeRange => a.stop ≤ b.start) := by
  simp only [SegmentBuilder.finalize]
  exact finalizePipeline_props cfg dur hgap _

/-- Witness for C5 at the spec's own example: two raw segments `[2,8]`
and `[15,20.5]` with the default configuration and duration 35. -/
theorem c5_finalize_invariants_witness :
    (0 : ℚ) ≤ defaultConfig.max_segment_gap ∧
    ((∀ r ∈ (SegmentBuilder.finalize defaultConfig
        (SegmentBuilder.runOps defaultConfig
          [.appendRaw 2 8, .appendRaw 15 20.5]) 35).1,
      0 ≤ r.start ∧ r.stop ≤ 35 ∧ defaultConfig.min_segment_duration ≤ r.duration) ∧
    (SegmentBuilder.finalize defaultConfig
        (SegmentBuilder.runOps defaultConfig
          [.appendRaw 2 8, .appendRaw 15 20.5]) 35).1.Pairwise
      (fun a b : TimeRange => a.start ≤ b.start) ∧
    (SegmentBuilder.finalize defaultConfig
        (SegmentBuilder.runOps defaultConfig
          [.appendRaw 2 8, .appendRaw 15 20.5]) 35).1.Pairwise
      (fun a b : TimeRange => a.stop ≤ b.start)) :=
  ⟨by norm_num [defaultConfig],
   c5_finalize_invariants defaultConfig [.appendRaw 2 8, .appendRaw 15 20.5] 35
     (by norm_num [defaultConfig])⟩

/-- Updating a tracker after `reset` behaves exactly like updating a
fresh tracker: the stale `_current_detections` attribute is only read by
`_update_tracks`, which does nothing when there are no associations, and
a reset tracker has no tracks to associate. -/
theorem tracker_update_reset_eq (sq : ℚ → ℚ) (cfg : ProcessorConfig)
    (s : KalmanBallTracker.State) (dets : List KalmanBallTracker.Detection) :
    KalmanBallTracker.update sq cfg (KalmanBallTracker.reset s) dets =
      KalmanBallTracker.update sq cfg KalmanBallTracker.init dets := by
  simp [KalmanBallTracker.update, KalmanBallTracker.reset, KalmanBallTracker.init,
    KalmanBallTracker.associateDetections, KalmanBallTracker.assocCandidates,
    KalmanBallTracker.greedyMatch, pySortBy, KalmanBallTracker.updateTracksGo]

/-- The tracker's post-reset run returns the same per-call track lists as
a fresh tracker's run, for every input sequence. -/
theorem tracker_run_reset_eq (sq : ℚ → ℚ) (cfg : ProcessorConfig)
    (s : KalmanBallTracker.State) (seqs : List (List KalmanBallTracker.Detection)) :
    (KalmanBallTracker.run sq cfg (KalmanBallTracker.reset s) seqs).map Prod.snd =
      (KalmanBallTracker.run sq cfg KalmanBallTracker.init seqs).map Prod.snd := by
  cases seqs with
  | nil => simp [KalmanBallTracker.run]
  | cons d rest =>
    simp only [KalmanBallTracker.run, tracker_update_reset_eq]

/-- `_update_confidence_history` does not change the current state. -/
theorem uch_current_state (ctx : RallyContext) (s : RallyDecider.State) :
    (RallyDecider.updateConfidenceHistory ctx s).current_state = s.current_state := by
  simp only [RallyDecider.updateConfidenceHistory]
  repeat' split
  all_goals rfl

/-- `_update_confidence_history` does not change the state start time. -/
theorem uch_state_start_time (ctx : RallyContext) (s : RallyDecider.State) :
    (RallyDecider.updateConfidenceHistory ctx s).state_start_time = s.state_start_time := by
  simp only [RallyDecider.updateConfidenceHistory]
  repeat' split
  all_goals rfl

/-- The confidence history after `_update_confidence_history` is a
function of the previous history and the context alone. -/
theorem uch_history (ctx : RallyContext) (s : RallyDecider.State) :
    (RallyDecider.updateConfidenceHistory ctx s).rally_confidence_history =
      (if 100 <
          (s.rally_confidence_history ++
            [(ctx.current_time, ctx.detection_confidence)]).length then
        (s.rally_confidence_history ++
          [(ctx.current_time, ctx.detection_confidence)]).tail
      else
        s.rally_confidence_history ++
          [(ctx.current_time, ctx.detection_confidence)]) := by
  simp only [RallyDecider.updateConfidenceHistory]
  repeat' split
  all_goals rfl

/-- `_update_velocity_tracking` does not change the current state. -/
theorem uvt_current_state (cfg : ProcessorConfig) (ctx : RallyContext)
    (s : RallyDecider.State) :
    (RallyDecider.updateVelocityTracking cfg ctx s).current_state = s.current_state := by
  simp only [RallyDecider.updateVelocityTracking]
  repeat' split
  all_goals rfl

/-- `_update_velocity_tracking` does not change the state start time. -/
theorem uvt_state_start_time (cfg : ProcessorConfig) (ctx : RallyContext)
    (s : RallyDecider.State) :
    (RallyDecider.updateVelocityTracking cfg ctx s).state_start_time =
      s.state_start_time := by
  simp only [RallyDecider.updateVelocityTracking]
  repeat' split
  all_goals rfl

/-- `_update_velocity_tracking` does not change the confidence history. -/
theorem uvt_history (cfg : ProcessorConfig) (ctx : RallyContext)
    (s : RallyDecider.State) :
    (RallyDecider.updateVelocityTracking cfg ctx s).rally_confidence_history =
      s.rally_confidence_history := by
  simp only [RallyDecider.updateVelocityTracking]
  repeat' split
  all_goals rfl

/-- The rally confidence depends on the state only through the
confidence history. -/
theorem calcConf_congr (s t : RallyDecider.State) (ctx : RallyContext)
    (h : s.rally_confidence_history = t.rally_confidence_history) :
    RallyDecider.calculateRallyConfidence s ctx =
      RallyDecider.calculateRallyConfidence t ctx := by
  unfold RallyDecider.calculateRallyConfidence RallyDecider.calculateTemporalConfidence
  rw [h]

/-- `_transition_to_state` sets the current state to the new state. -/
theorem tts_current_state (cfg : ProcessorConfig) (ns : RallyState) (c tme : ℚ)
    (s : RallyDecider.State) :
    (RallyDecider.transitionToState cfg ns c tme s).current_state = ns := rfl

/-- `_transition_to_state` sets the state start time to the timestamp. -/
theorem tts_state_start_time (cfg : ProcessorConfig) (ns : RallyState) (c tme : ℚ)
    (s : RallyDecider.State) :
    (RallyDecider.transitionToState cfg ns c tme s).state_start_time = tme := rfl

/-- `_transition_to_state` does not change the confidence history. -/
theorem tts_history (cfg : ProcessorConfig) (ns : RallyState) (c tme : ℚ)
    (s : RallyDecider.State) :
    (RallyDecider.transitionToState cfg ns c tme s).rally_confidence_history =
      s.rally_confidence_history := by
  simp only [RallyDecider.transitionToState, RallyDecider.startRally,
    RallyDecider.endRally]
  repeat' split
  all_goals rfl

/-- `_update_rally_tracking` does not change the current state. -/
theorem urt_current_state (c : ℚ) (s : RallyDecider.State) :
    (RallyDecider.updateRallyTracking c s).current_state = s.current_state := by
  simp only [RallyDecider.updateRallyTracking]
  split
  all_goals rfl

/-- `_update_rally_tracking` does not change the state start time. -/
theorem urt_state_start_time (c : ℚ) (s : RallyDecider.State) :
    (RallyDecider.updateRallyTracking c s).state_start_time = s.state_start_time := by
  simp only [RallyDecider.updateRallyTracking]
  split
  all_goals rfl

/-- `_update_rally_tracking` does not change the confidence history. -/
theorem urt_history (c : ℚ) (s : RallyDecider.State) :
    (RallyDecider.updateRallyTracking c s).rally_confidence_history =
      s.rally_confidence_history := by
  simp only [RallyDecider.updateRallyTracking]
  split
  all_goals rfl

/-- Two decider states agreeing on the current state, the state start
time and the confidence history produce the same returned state and stay
in agreement after one `update`. -/
theorem rally_update_congr (cfg : ProcessorConfig) (s t : RallyDecider.State)
    (ctx : RallyContext)
    (h1 : s.current_state = t.current_state)
    (h2 : s.state_start_time = t.state_start_time)
    (h3 : s.rally_confidence_history = t.rally_confidence_history) :
    (RallyDecider.update cfg s ctx).2 = (RallyDecider.update cfg t ctx).2 ∧
    (RallyDecider.update cfg s ctx).1.current_state =
      (RallyDecider.update cfg t ctx).1.current_state ∧
    (RallyDecider.update cfg s ctx).1.state_start_time =
      (RallyDecider.update cfg t ctx).1.state_start_time ∧
    (RallyDecider.update cfg s ctx).1.rally_confidence_history =
      (RallyDecider.update cfg t ctx).1.rally_confidence_history := by
  have hcs2 : (RallyDecider.updateVelocityTracking cfg ctx
      (RallyDecider.updateConfidenceHistory ctx s)).current_state =
      (RallyDecider.updateVelocityTracking cfg ctx
        (RallyDecider.updateConfidenceHistory ctx t)).current_state := by
    rw [uvt_current_state, uvt_current_state, uch_current_state, uch_current_state, h1]
  have hsst2 : (RallyDecider.updateVelocityTracking cfg ctx
      (RallyDecider.updateConfidenceHistory ctx s)).state_start_time =
      (RallyDecider.updateVelocityTracking cfg ctx
        (RallyDecider.updateConfidenceHistory ctx t)).state_start_time := by
    rw [uvt_state_start_time, uvt_state_start_time, uch_state_start_time,
      uch_state_start_time, h2]
  have hrch2 : (RallyDecider.updateVelocityTracking cfg ctx
      (RallyDecider.updateConfidenceHistory ctx s)).rally_confidence_history =
      (RallyDecider.updateVelocityTracking cfg ctx
        (RallyDecider.updateConfidenceHistory ctx t)).rally_confidence_history := by
    rw [uvt_history, uvt_history, uch_history, uch_history, h3]
  have hconf : RallyDecider.calculateRallyConfidence
      (RallyDecider.updateVelocityTracking cfg ctx
        (RallyDecider.updateConfidenceHistory ctx s)) ctx =
      RallyDecider.calculateRallyConfidence
        (RallyDecider.updateVelocityTracking cfg ctx
          (RallyDecider.updateConfidenceHistory ctx t)) ctx :=
    calcConf_congr _ _ ctx hrch2
  have hns : RallyDecider.determineNewState cfg
      (RallyDecider.updateVelocityTracking cfg ctx
        (RallyDecider.updateConfidenceHistory ctx s)).current_state
      (RallyDecider.updateVelocityTracking cfg ctx
        (RallyDecider.updateConfidenceHistory ctx s)).state_start_time
      (RallyDecider.calculateRallyConfidence
        (RallyDecider.updateVelocityTracking cfg ctx
          (RallyDecider.updateConfidenceHistory ctx s)) ctx)
      ctx.current_time ctx.time_since_last_detection =
      RallyDecider.determineNewState cfg
        (RallyDecider.updateVelocityTracking cfg ctx
          (RallyDecider.updateConfidenceHistory ctx t)).current_state
        (RallyDecider.updateVelocityTracking cfg ctx
          (RallyDecider.updateConfidenceHistory ctx t)).state_start_time
        (RallyDecider.calculateRallyConfidence
          (RallyDecider.updateVelocityTracking cfg ctx
            (RallyDecider.updateConfidenceHistory ctx t)) ctx)
        ctx.current_time ctx.time_since_last_detection := by
    rw [hcs2, hsst2, hconf]
  simp only [RallyDecider.update]
  rw [hns, hconf, hcs2]
  split
  · refine ⟨?_, ?_, ?_, ?_⟩
    · rw [urt_current_state, urt_current_state, tts_current_state, tts_current_state]
    · rw [urt_current_state, urt_current_state, tts_current_state, tts_current_state]
    · rw [urt_state_start_time, urt_state_start_time, tts_state_start_time,
        tts_state_start_time]
    · rw [urt_history, urt_history, tts_history, tts_history, hrch2]
  · refine ⟨?_, ?_, ?_, ?_⟩
    · rw [urt_current_state, urt_current_state, hcs2]
    · rw [urt_current_state, urt_current_state, hcs2]
    · rw [urt_state_start_time, urt_state_start_time, hsst2]
    · rw [urt_history, urt_history, hrch2]

/-- Two decider states agreeing on the state-machine fields return the
same per-frame state sequence on every input sequence. -/
theorem rally_run_congr (cfg : ProcessorConfig) :
    ∀ (ctxs : List RallyContext) (s t : RallyDecider.State),
      s.current_state = t.current_state →
      s.state_start_time = t.state_start_time →
      s.rally_confidence_history = t.rally_confidence_history →
      (RallyDecider.run cfg s ctxs).2 = (RallyDecider.run cfg t ctxs).2 := by
  intro ctxs
  induction ctxs with
  | nil => intro s t _ _ _; rfl
  | cons ctx rest ih =>
    intro s t h1 h2 h3
    have h := rally_update_congr cfg s t ctx h1 h2 h3
    simp only [RallyDecider.run]
    rw [h.1, ih _ _ h.2.1 h.2.2.1 h.2.2.2]

/-- Amended claim C3: after `reset()` the tracker produces the same
outputs as a freshly constructed tracker for every subsequent input
sequence, and the segment builder's reset state IS the initial state;
the rally decider still returns the same per-frame rally states as a
fresh instance, but (shown separately by the counterexample) its
completed-rally output can differ, because reset keeps the
velocity-tracking and contact state. -/
theorem c3_reset_equivalences :
    (∀ (sq : ℚ → ℚ) (cfg : ProcessorConfig) (s : KalmanBallTracker.State)
        (seqs : List (List KalmanBallTracker.Detection)),
      (KalmanBallTracker.run sq cfg (KalmanBallTracker.reset s) seqs).map Prod.snd =
        (KalmanBallTracker.run sq cfg KalmanBallTracker.init seqs).map Prod.snd) ∧
    (∀ s : SegmentBuilder.State, SegmentBuilder.reset s = SegmentBuilder.init) ∧
    (∀ (cfg : ProcessorConfig) (s : RallyDecider.State) (ctxs : List RallyContext),
      (RallyDecider.run cfg (RallyDecider.reset s) ctxs).2 =
        (RallyDecider.run cfg RallyDecider.init ctxs).2) :=
  ⟨tracker_run_reset_eq, fun _ => rfl,
   fun cfg _s ctxs => rally_run_congr cfg ctxs _ _ rfl rfl rfl⟩


/-- The Kalman correction leaves the track id unchanged. -/
theorem kalmanCorrect_track_id (cfg : ProcessorConfig) (fc : ℕ) (t : TrackingState)
    (zx zy : ℚ) : (KalmanBallTracker.kalmanCorrect cfg fc t zx zy).track_id = t.track_id :=
  rfl

/-- Prediction leaves the track id unchanged. -/
theorem predictTrack_track_id (cfg : ProcessorConfig) (t : TrackingState) :
    (KalmanBallTracker.predictTrack cfg t).track_id = t.track_id := rfl

/-- Prediction leaves the last-detection frame unchanged. -/
theorem predictTrack_ldf (cfg : ProcessorConfig) (t : TrackingState) :
    (KalmanBallTracker.predictTrack cfg t).last_detection_frame =
      t.last_detection_frame := rfl

/-- Unfolding equation of the correction pass for a nonempty association
list. -/
theorem updateTracksGo_cons (cfg : ProcessorConfig)
    (cds : Option (List KalmanBallTracker.Detection)) (fc tid didx : ℕ)
    (rest : List (ℕ × ℕ)) (trs : List TrackingState) :
    KalmanBallTracker.updateTracksGo cfg cds fc ((tid, didx) :: rest) trs =
      match cds with
      | none => KalmanBallTracker.updateTracksGo cfg cds fc rest trs
      | some l =>
        match l.get? didx with
        | none => none
        | some d =>
          KalmanBallTracker.updateTracksGo cfg cds fc rest
            (trs.map (fun t =>
              if t.track_id = tid then KalmanBallTracker.kalmanCorrect cfg fc t d.1 d.2.1
              else t)) := rfl

/-- The correction pass preserves the id list of the track dictionary. -/
theorem updateTracksGo_ids (cfg : ProcessorConfig)
    (cds : Option (List KalmanBallTracker.Detection)) (fc : ℕ) :
    ∀ (assoc : List (ℕ × ℕ)) (trs trs' : List TrackingState),
      KalmanBallTracker.updateTracksGo cfg cds fc assoc trs = some trs' →
      trs'.map TrackingState.track_id = trs.map TrackingState.track_id := by
  intro assoc
  induction assoc with
  | nil =>
    intro trs trs' h
    rw [KalmanBallTracker.updateTracksGo, Option.some_inj] at h
    rw [h]
  | cons p rest ih =>
    intro trs trs' h
    obtain ⟨tid, didx⟩ := p
    cases cds with
    | none =>
      simp only [updateTracksGo_cons] at h
      exact ih trs trs' h
    | some l =>
      simp only [updateTracksGo_cons] at h
      split at h
      · exact absurd h (by simp)
      · have hrec := ih _ _ h
        rw [hrec, List.map_map]
        apply List.map_congr_left
        intro t _
        by_cases ht : t.track_id = tid <;> simp [ht, kalmanCorrect_track_id]

/-- A track whose id was not associated is carried through the
correction pass unchanged. -/
theorem updateTracksGo_unassoc (cfg : ProcessorConfig)
    (cds : Option (List KalmanBallTracker.Detection)) (fc i : ℕ) :
    ∀ (assoc : List (ℕ × ℕ)) (trs trs' : List TrackingState),
      i ∉ assoc.map Prod.fst →
      KalmanBallTracker.updateTracksGo cfg cds fc assoc trs = some trs' →
      ∀ t' ∈ trs', t'.track_id = i → t' ∈ trs := by
  intro assoc
  induction assoc with
  | nil =>
    intro trs trs' _ h t' ht' _
    rw [KalmanBallTracker.updateTracksGo, Option.some_inj] at h
    rw [h]
    exact ht'
  | cons p rest ih =>
    intro trs trs' hni h t' ht' hid
    obtain ⟨tid, didx⟩ := p
    simp only [List.map_cons, List.mem_cons, not_or] at hni
    cases cds with
    | none =>
      simp only [updateTracksGo_cons] at h
      exact ih trs trs' (by simpa using hni.2) h t' ht' hid
    | some l =>
      simp only [updateTracksGo_cons] at h
      split at h
      · exact absurd h (by simp)
      · have hmem := ih _ _ (by simpa using hni.2) h t' ht' hid
        simp only [List.mem_map] at hmem
        obtain ⟨u, hu, huv⟩ := hmem
        by_cases hcase : u.track_id = tid
        · rw [if_pos hcase] at huv
          exfalso
          apply hni.1
          rw [← hid, ← huv, kalmanCorrect_track_id, hcase]
        · rw [if_neg hcase] at huv
          rw [← huv]
          exact hu

/-- Every track after the correction pass comes from an input track with
the same id, and its last-detection frame is either unchanged or set to
the current frame. -/
theorem updateTracksGo_mem (cfg : ProcessorConfig)
    (cds : Option (List KalmanBallTracker.Detection)) (fc : ℕ) :
    ∀ (assoc : List (ℕ × ℕ)) (trs trs' : List TrackingState),
      KalmanBallTracker.updateTracksGo cfg cds fc assoc trs = some trs' →
      ∀ t' ∈ trs', ∃ u ∈ trs, t'.track_id = u.track_id ∧
        (t'.last_detection_frame = u.last_detection_frame ∨
          t'.last_detection_frame = fc) := by
  intro assoc
  induction assoc with
  | nil =>
    intro trs trs' h t' ht'
    rw [KalmanBallTracker.updateTracksGo, Option.some_inj] at h
    subst h
    exact ⟨t', ht', rfl, Or.inl rfl⟩
  | cons p rest ih =>
    intro trs trs' h t' ht'
    obtain ⟨tid, didx⟩ := p
    cases cds with
    | none =>
      simp only [updateTracksGo_cons] at h
      exact ih trs trs' h t' ht'
    | some l =>
      simp only [updateTracksGo_cons] at h
      split at h
      · exact absurd h (by simp)
      · obtain ⟨u, hu, hid, hldf⟩ := ih _ _ h t' ht'
        simp only [List.mem_map] at hu
        obtain ⟨v, hv, huv⟩ := hu
        by_cases hcase : v.track_id = tid
        · rw [if_pos hcase] at huv
          refine ⟨v, hv, ?_, ?_⟩
          · rw [hid, ← huv, kalmanCorrect_track_id]
          · rcases hldf with hldf | hldf
            · right
              rw [hldf, ← huv]
              rfl
            · exact Or.inr hldf
        · rw [if_neg hcase] at huv
          subst huv
          exact ⟨v, hv, hid, hldf⟩

/-- Unfolding equation of the spawning pass for a nonempty enumerated
detection list. -/
theorem createNewTracksGo_cons (cfg : ProcessorConfig) (fc : ℕ) (idxs : List ℕ)
    (i : ℕ) (d : KalmanBallTracker.Detection) (rest : List (ℕ × KalmanBallTracker.Detection))
    (nid : ℕ) (trs : List TrackingState) :
    KalmanBallTracker.createNewTracksGo cfg fc idxs ((i, d) :: rest) nid trs =
      if i ∉ idxs ∧ cfg.min_tracking_confidence ≤ d.2.2 then
        KalmanBallTracker.createNewTracksGo cfg fc idxs rest (nid + 1)
          (trs ++ [{ state := { x := d.1, y := d.2.1, vx := 0, vy := 0 }
                     covariance := M4.diag 100 100 100 100
                     confidence := d.2.2
                     last_detection_frame := fc
                     prediction_count := 0
                     track_id := nid
                     age := 0 }])
      else
        KalmanBallTracker.createNewTracksGo cfg fc idxs rest nid trs := rfl

/-- The id counter never decreases across the spawning pass. -/
theorem createNewTracksGo_next (cfg : ProcessorConfig) (fc : ℕ) (idxs : List ℕ) :
    ∀ (entries : List (ℕ × KalmanBallTracker.Detection)) (nid : ℕ)
      (trs : List TrackingState),
      nid ≤ (KalmanBallTracker.createNewTracksGo cfg fc idxs entries nid trs).2 := by
  intro entries
  induction entries with
  | nil => intro nid trs; rw [KalmanBallTracker.createNewTracksGo]
  | cons e rest ih =>
    intro nid trs
    obtain ⟨i, d⟩ := e
    rw [createNewTracksGo_cons]
    split
    · exact le_trans (Nat.le_succ nid) (ih (nid + 1) _)
    · exact ih nid trs

/-- Every track after the spawning pass is an input track or a freshly
created one with an id in `[nid, nid')` and the current frame as its
last detection. -/
theorem createNewTracksGo_mem (cfg : ProcessorConfig) (fc : ℕ) (idxs : List ℕ) :
    ∀ (entries : List (ℕ × KalmanBallTracker.Detection)) (nid : ℕ)
      (trs : List TrackingState),
      ∀ t' ∈ (KalmanBallTracker.createNewTracksGo cfg fc idxs entries nid trs).1,
        t' ∈ trs ∨
          (nid ≤ t'.track_id ∧
            t'.track_id < (KalmanBallTracker.createNewTracksGo cfg fc idxs entries nid trs).2 ∧
            t'.last_detection_frame = fc) := by
  intro entries
  induction entries with
  | nil =>
    intro nid trs t' ht'
    rw [KalmanBallTracker.createNewTracksGo] at ht' ⊢
    exact Or.inl ht'
  | cons e rest ih =>
    intro nid trs t' ht'
    obtain ⟨i, d⟩ := e
    rw [createNewTracksGo_cons] at ht' ⊢
    split at ht' <;> rename_i hcond
    · rw [if_pos hcond]
      rcases ih (nid + 1) _ t' ht' with hin | ⟨h1, h2, h3⟩
      · rcases List.mem_append.mp hin with hin | hin
        · exact Or.inl hin
        · simp only [List.mem_singleton] at hin
          subst hin
          refine Or.inr ⟨le_refl _, ?_, rfl⟩
          exact lt_of_lt_of_le (Nat.lt_succ_self nid) (createNewTracksGo_next cfg fc idxs rest (nid + 1) _)
      · exact Or.inr ⟨le_trans (Nat.le_succ nid) h1, h2, h3⟩
    · rw [if_neg hcond]
      rcases ih nid trs t' ht' with hin | ⟨h1, h2, h3⟩
      · exact Or.inl hin
      · exact Or.inr ⟨h1, h2, h3⟩

/-- The spawning pass preserves id distinctness and the id bound. -/
theorem createNewTracksGo_wf (cfg : ProcessorConfig) (fc : ℕ) (idxs : List ℕ) :
    ∀ (entries : List (ℕ × KalmanBallTracker.Detection)) (nid : ℕ)
      (trs : List TrackingState),
      (trs.map TrackingState.track_id).Nodup →
      (∀ t ∈ trs, t.track_id < nid) →
      ((KalmanBallTracker.createNewTracksGo cfg fc idxs entries nid trs).1.map
        TrackingState.track_id).Nodup ∧
      (∀ t' ∈ (KalmanBallTracker.createNewTracksGo cfg fc idxs entries nid trs).1,
        t'.track_id < (KalmanBallTracker.createNewTracksGo cfg fc idxs entries nid trs).2) := by
  intro entries
  induction entries with
  | nil =>
    intro nid trs h1 h2
    rw [KalmanBallTracker.createNewTracksGo]
    exact ⟨h1, h2⟩
  | cons e rest ih =>
    intro nid trs h1 h2
    obtain ⟨i, d⟩ := e
    rw [createNewTracksGo_cons]
    split
    · apply ih (nid + 1)
      · rw [List.map_append, List.nodup_append]
        refine ⟨h1, by simp, ?_⟩
        intro a ha hb
        simp only [List.mem_map] at ha
        obtain ⟨u, hu, rfl⟩ := ha
        simp only [List.map_cons, List.map_nil, List.mem_singleton] at hb
        exact absurd hb (Nat.ne_of_lt (h2 u hu))
      · intro t ht
        rcases List.mem_append.mp ht with hin | hin
        · exact lt_trans (h2 t hin) (Nat.lt_succ_self nid)
        · simp only [List.mem_singleton] at hin
          subst hin
          exact Nat.lt_succ_self nid
    · exact ih nid trs h1 h2

/-- The retirement pass keeps a sublist of the tracks. -/
theorem cleanupTracks_sublist (cfg : ProcessorConfig) (fc : ℕ)
    (trs : List TrackingState) :
    (KalmanBallTracker.cleanupTracks cfg fc trs).Sublist trs :=
  List.filter_sublist trs

/-- Every track surviving the retirement pass was detected within the
last `max_missed_frames` frames. -/
theorem cleanupTracks_bound (cfg : ProcessorConfig) (fc : ℕ)
    (trs : List TrackingState) :
    ∀ t ∈ KalmanBallTracker.cleanupTracks cfg fc trs,
      (fc : ℤ) - t.last_detection_frame ≤ cfg.max_missed_frames := by
  intro t ht
  have := List.of_mem_filter ht
  rw [decide_eq_true_eq, not_or] at this
  exact le_of_not_lt this.1

/-- The confidence refresh leaves the track id unchanged. -/
theorem updateConfidenceStep_track_id (cfg : ProcessorConfig) (t : TrackingState) :
    (KalmanBallTracker.updateConfidenceStep cfg t).track_id = t.track_id := rfl

/-- The confidence refresh leaves the last-detection frame unchanged. -/
theorem updateConfidenceStep_ldf (cfg : ProcessorConfig) (t : TrackingState) :
    (KalmanBallTracker.updateConfidenceStep cfg t).last_detection_frame =
      t.last_detection_frame := rfl

/-- Master inversion lemma for one `update` call: the returned list is
the new track dictionary; the frame counter advances by one; the id
counter never decreases; every returned track was detected within
`max_missed_frames` frames; every track either descends from an input
track (with its id, and its last detection either unchanged or set to
the new frame) or is freshly spawned with an id at or above the old
counter; well-formedness is preserved; and a track whose id was not in
this call's association keeps its last-detection frame. -/
theorem update_master (sq : ℚ → ℚ) (cfg : ProcessorConfig) (s : KalmanBallTracker.State)
    (dets : List KalmanBallTracker.Detection)
    (r : KalmanBallTracker.State × List TrackingState)
    (h : KalmanBallTracker.update sq cfg s dets = some r) :
    r.2 = r.1.tracks ∧
    r.1.frame_count = s.frame_count + 1 ∧
    s.next_track_id ≤ r.1.next_track_id ∧
    (∀ t ∈ r.1.tracks,
      (r.1.frame_count : ℤ) - t.last_detection_frame ≤ cfg.max_missed_frames) ∧
    (∀ t' ∈ r.1.tracks,
      (∃ u ∈ s.tracks, t'.track_id = u.track_id ∧
        (t'.last_detection_frame = u.last_detection_frame ∨
          t'.last_detection_frame = s.frame_count + 1)) ∨
      (s.next_track_id ≤ t'.track_id ∧ t'.track_id < r.1.next_track_id ∧
        t'.last_detection_frame = s.frame_count + 1)) ∧
    (KalmanBallTracker.Wf s → KalmanBallTracker.Wf r.1) ∧
    (∀ i, i ∉ (KalmanBallTracker.callAssoc sq cfg s dets).map Prod.fst →
      i < s.next_track_id →
      ∀ t' ∈ r.1.tracks, t'.track_id = i →
        ∃ u ∈ s.tracks, u.track_id = i ∧
          t'.last_detection_frame = u.last_detection_frame) := by
  simp only [KalmanBallTracker.update] at h
  split at h
  · exact absurd h (by simp)
  · rename_i corrected heqU
    rw [Option.some_inj] at h
    subst h
    -- abbreviations
    set fc := s.frame_count + 1 with hfc
    set predicted := s.tracks.map (KalmanBallTracker.predictTrack cfg) with hpred
    set assoc := KalmanBallTracker.associateDetections sq cfg predicted dets with hassoc
    set created := KalmanBallTracker.createNewTracksGo cfg fc (assoc.map Prod.snd)
      (pyEnum dets) s.next_track_id corrected with hcreated
    set cleaned := KalmanBallTracker.cleanupTracks cfg fc created.1 with hcleaned
    -- id lists through the correction pass
    have hcorrIds : corrected.map TrackingState.track_id =
        s.tracks.map TrackingState.track_id := by
      rw [updateTracksGo_ids cfg s.current_detections fc assoc predicted corrected heqU,
        hpred, List.map_map]
      apply List.map_congr_left
      intro t _
      rw [Function.comp_apply, predictTrack_track_id]
    -- membership through the correction pass
    have hcorrMem : ∀ t' ∈ corrected, ∃ u ∈ s.tracks, t'.track_id = u.track_id ∧
        (t'.last_detection_frame = u.last_detection_frame ∨
          t'.last_detection_frame = fc) := by
      intro t' ht'
      obtain ⟨p, hp, hid, hldf⟩ :=
        updateTracksGo_mem cfg s.current_detections fc assoc predicted corrected heqU t' ht'
      rw [hpred] at hp
      simp only [List.mem_map] at hp
      obtain ⟨u, hu, rfl⟩ := hp
      exact ⟨u, hu, by rw [hid, predictTrack_track_id],
        by rw [predictTrack_ldf] at hldf; exact hldf⟩
    -- membership of the final list in cleaned
    have hfin : ∀ t' ∈ cleaned.map (KalmanBallTracker.updateConfidenceStep cfg),
        ∃ c ∈ cleaned, t'.track_id = c.track_id ∧
          t'.last_detection_frame = c.last_detection_frame := by
      intro t' ht'
      simp only [List.mem_map] at ht'
      obtain ⟨c, hc, rfl⟩ := ht'
      exact ⟨c, hc, rfl, rfl⟩
    have hclean_sub : ∀ c ∈ cleaned, c ∈ created.1 :=
      fun c hc => (cleanupTracks_sublist cfg fc created.1).mem hc
    refine ⟨rfl, rfl, ?_, ?_, ?_, ?_, ?_⟩
    · exact createNewTracksGo_next cfg fc _ (pyEnum dets) s.next_track_id corrected
    · intro t ht
      obtain ⟨c, hc, -, hldf⟩ := hfin t ht
      rw [hldf]
      exact cleanupTracks_bound cfg fc created.1 c hc
    · intro t' ht'
      obtain ⟨c, hc, hid, hldf⟩ := hfin t' ht'
      rcases createNewTracksGo_mem cfg fc _ (pyEnum dets) s.next_track_id corrected c
          (hclean_sub c hc) with hin | ⟨h1, h2, h3⟩
      · obtain ⟨u, hu, hid2, hldf2⟩ := hcorrMem c hin
        exact Or.inl ⟨u, hu, by rw [hid, hid2], by rw [hldf]; exact hldf2⟩
      · exact Or.inr ⟨by rw [hid]; exact h1, by rw [hid]; exact h2, by rw [hldf]; exact h3⟩
    · intro hwf
      have hcorrBound : ∀ t ∈ corrected, t.track_id < s.next_track_id := by
        intro t ht
        have : t.track_id ∈ corrected.map TrackingState.track_id := List.mem_map_of_mem _ ht
        rw [hcorrIds] at this
        simp only [List.mem_map] at this
        obtain ⟨u, hu, huid⟩ := this
        rw [← huid]
        exact hwf.2.1 u hu
      have hcorrNodup : (corrected.map TrackingState.track_id).Nodup := by
        rw [hcorrIds]; exact hwf.1
      have hcwf := createNewTracksGo_wf cfg fc (assoc.map Prod.snd) (pyEnum dets)
        s.next_track_id corrected hcorrNodup hcorrBound
      have hfinIds : (cleaned.map (KalmanBallTracker.updateConfidenceStep cfg)).map
          TrackingState.track_id = cleaned.map TrackingState.track_id := by
        rw [List.map_map]
        apply List.map_congr_left
        intro t _
        rw [Function.comp_apply, updateConfidenceStep_track_id]
      refine ⟨?_, ?_, ?_⟩
      · show ((cleaned.map (KalmanBallTracker.updateConfidenceStep cfg)).map
          TrackingState.track_id).Nodup
        rw [hfinIds]
        exact hcwf.1.sublist ((cleanupTracks_sublist cfg fc created.1).map _)
      · intro t ht
        obtain ⟨c, hc, hid, -⟩ := hfin t ht
        rw [hid]
        exact hcwf.2 c (hclean_sub c hc)
      · intro t ht
        obtain ⟨c, hc, -, hldf⟩ := hfin t ht
        rcases createNewTracksGo_mem cfg fc _ (pyEnum dets) s.next_track_id corrected c
            (hclean_sub c hc) with hin | ⟨-, -, h3⟩
        · obtain ⟨u, hu, -, hldf2⟩ := hcorrMem c hin
          rcases hldf2 with hldf2 | hldf2
          · rw [hldf, hldf2]
            exact le_trans (hwf.2.2 u hu) (Nat.le_succ _)
          · rw [hldf, hldf2]
        · rw [hldf, h3]
    · intro i hni hlt t' ht' hid
      obtain ⟨c, hc, hcid, hldf⟩ := hfin t' ht'
      have hcidi : c.track_id = i := hcid.symm.trans hid
      rcases createNewTracksGo_mem cfg fc _ (pyEnum dets) s.next_track_id corrected c
          (hclean_sub c hc) with hin | ⟨h1, -, -⟩
      · have hnia : i ∉ assoc.map Prod.fst := by
          have hca : KalmanBallTracker.callAssoc sq cfg s dets = assoc := rfl
          rw [← hca]
          exact hni
        have hcp := updateTracksGo_unassoc cfg s.current_detections fc i assoc predicted
          corrected hnia heqU c hin hcidi
        rw [hpred] at hcp
        obtain ⟨u, hu, rfl⟩ := List.mem_map.mp hcp
        refine ⟨u, hu, hcidi, ?_⟩
        rw [hldf]
        exact predictTrack_ldf cfg u
      · rw [hcidi] at h1
        exact absurd hlt (not_lt.mpr h1)

/-- Master inversion lemma for a run of `update` calls: the id counter
is monotone, the frame counter advances by the number of calls,
well-formedness is preserved, every surviving track's id existed at the
start or is at least the starting id counter, and (for a nonempty run)
every surviving track was detected within `max_missed_frames` frames of
the final frame. -/
theorem run_master (sq : ℚ → ℚ) (cfg : ProcessorConfig) :
    ∀ (seq : List (List KalmanBallTracker.Detection)) (s : KalmanBallTracker.State)
      (r : KalmanBallTracker.State × List (List TrackingState)),
      KalmanBallTracker.run sq cfg s seq = some r →
      s.next_track_id ≤ r.1.next_track_id ∧
      r.1.frame_count = s.frame_count + seq.length ∧
      (KalmanBallTracker.Wf s → KalmanBallTracker.Wf r.1) ∧
      (∀ t ∈ r.1.tracks,
        t.track_id ∈ s.tracks.map TrackingState.track_id ∨ s.next_track_id ≤ t.track_id) ∧
      (seq ≠ [] → ∀ t ∈ r.1.tracks,
        (r.1.frame_count : ℤ) - t.last_detection_frame ≤ cfg.max_missed_frames) := by
  intro seq
  induction seq with
  | nil =>
    intro s r h
    rw [KalmanBallTracker.run, Option.some_inj] at h
    subst h
    refine ⟨le_refl _, by simp, fun hw => hw, ?_, fun hne => absurd rfl hne⟩
    intro t ht
    exact Or.inl (List.mem_map_of_mem _ ht)
  | cons d rest ih =>
    intro s r h
    rw [KalmanBallTracker.run] at h
    split at h
    · exact absurd h (by simp)
    · rename_i p hp
      split at h
      · exact absurd h (by simp)
      · rename_i q hq
        rw [Option.some_inj] at h
        subst h
        have hm := update_master sq cfg s d p hp
        have hr := ih p.1 q hq
        refine ⟨le_trans hm.2.2.1 hr.1, ?_, fun hw => hr.2.2.1 (hm.2.2.2.2.2.1 hw), ?_, ?_⟩
        · rw [hr.2.1, hm.2.1, List.length_cons]
          omega
        · intro t ht
          rcases hr.2.2.2.1 t ht with hmem | hge
          · simp only [List.mem_map] at hmem
            obtain ⟨u, hu, huid⟩ := hmem
            rcases hm.2.2.2.2.1 u hu with ⟨v, hv, hvid, -⟩ | ⟨hge, -, -⟩
            · exact Or.inl (by rw [← huid, hvid]; exact List.mem_map_of_mem _ hv)
            · exact Or.inr (by rw [← huid]; exact hge)
          · exact Or.inr (le_trans hm.2.2.1 hge)
        · intro _hne t ht
          cases rest with
          | nil =>
            rw [KalmanBallTracker.run, Option.some_inj] at hq
            subst hq
            exact hm.2.2.2.1 t ht
          | cons d2 rest2 =>
            exact hr.2.2.2.2 (by simp) t ht

/-- In a run in which the track with id `i` is never associated with a
detection, every surviving track with id `i` keeps its original
last-detection frame. -/
theorem run_missed (sq : ℚ → ℚ) (cfg : ProcessorConfig) (i : ℕ) :
    ∀ (seq : List (List KalmanBallTracker.Detection)) (s : KalmanBallTracker.State)
      (r : KalmanBallTracker.State × List (List TrackingState)),
      KalmanBallTracker.Wf s → i < s.next_track_id →
      KalmanBallTracker.run sq cfg s seq = some r →
      (∀ (k : ℕ) (hk : k < seq.length)
          (rk : KalmanBallTracker.State × List (List TrackingState)),
        KalmanBallTracker.run sq cfg s (seq.take k) = some rk →
        i ∉ (KalmanBallTracker.callAssoc sq cfg rk.1 (seq.get ⟨k, hk⟩)).map Prod.fst) →
      ∀ t ∈ r.1.tracks, t.track_id = i →
        ∃ u ∈ s.tracks, u.track_id = i ∧
          t.last_detection_frame = u.last_detection_frame := by
  intro seq
  induction seq with
  | nil =>
    intro s r _ _ h _ t ht hid
    rw [KalmanBallTracker.run, Option.some_inj] at h
    subst h
    exact ⟨t, ht, hid, rfl⟩
  | cons d rest ih =>
    intro s r hwf hlt h hmiss t ht hid
    rw [KalmanBallTracker.run] at h
    split at h
    · exact absurd h (by simp)
    · rename_i p hp
      split at h
      · exact absurd h (by simp)
      · rename_i q hq
        rw [Option.some_inj] at h
        subst h
        have hm := update_master sq cfg s d p hp
        have hmiss0 : i ∉ (KalmanBallTracker.callAssoc sq cfg s d).map Prod.fst := by
          have h0 : KalmanBallTracker.run sq cfg s ((d :: rest).take 0) = some (s, []) := by
            rw [List.take_zero, KalmanBallTracker.run]
          exact hmiss 0 (by simp) (s, []) h0
        have hmiss' : ∀ (k : ℕ) (hk : k < rest.length)
            (rk : KalmanBallTracker.State × List (List TrackingState)),
            KalmanBallTracker.run sq cfg p.1 (rest.take k) = some rk →
            i ∉ (KalmanBallTracker.callAssoc sq cfg rk.1 (rest.get ⟨k, hk⟩)).map Prod.fst := by
          intro k hk rk hrk
          have htake : KalmanBallTracker.run sq cfg s ((d :: rest).take (k + 1)) =
              some (rk.1, p.2 :: rk.2) := by
            simp only [List.take_succ_cons, KalmanBallTracker.run, hp, hrk]
          have := hmiss (k + 1) (by simpa using Nat.succ_lt_succ hk) (rk.1, p.2 :: rk.2) htake
          simpa using this
        obtain ⟨u', hu', huid', hldf'⟩ := ih p.1 q
          (hm.2.2.2.2.2.1 hwf) (lt_of_lt_of_le hlt hm.2.2.1) hq hmiss' t ht hid
        obtain ⟨u, hu, huid, hldf⟩ := hm.2.2.2.2.2.2 i hmiss0 hlt u' hu' huid'
        exact ⟨u, hu, huid, by rw [hldf', hldf]⟩

/-- Claim C10: across any two consecutive successful runs from a fresh
tracker (with no intervening reset), surviving track ids are pairwise
distinct, the id counter never decreases, every id is below the counter,
and any track whose id was not present at the intermediate point got an
id at or above the intermediate counter — so no retired id is ever
reused and no two created tracks share an id. -/
theorem c10_track_ids_unique_monotone (sq : ℚ → ℚ) (cfg : ProcessorConfig)
    (seqA seqB : List (List KalmanBallTracker.Detection))
    (rA rB : KalmanBallTracker.State × List (List TrackingState))
    (hA : KalmanBallTracker.run sq cfg KalmanBallTracker.init seqA = some rA)
    (hB : KalmanBallTracker.run sq cfg rA.1 seqB = some rB) :
    (rB.1.tracks.map TrackingState.track_id).Nodup ∧
    rA.1.next_track_id ≤ rB.1.next_track_id ∧
    (∀ t ∈ rB.1.tracks, t.track_id < rB.1.next_track_id) ∧
    (∀ t ∈ rB.1.tracks, t.track_id ∉ rA.1.tracks.map TrackingState.track_id →
      rA.1.next_track_id ≤ t.track_id) := by
  have hWfInit : KalmanBallTracker.Wf KalmanBallTracker.init :=
    ⟨by simp [KalmanBallTracker.init], by simp [KalmanBallTracker.init],
      by simp [KalmanBallTracker.init]⟩
  have hmA := run_master sq cfg seqA KalmanBallTracker.init rA hA
  have hWfA := hmA.2.2.1 hWfInit
  have hmB := run_master sq cfg seqB rA.1 rB hB
  have hWfB := hmB.2.2.1 hWfA
  refine ⟨hWfB.1, hmB.1, hWfB.2.1, ?_⟩
  intro t ht hni
  exact (hmB.2.2.2.1 t ht).resolve_left hni

/-- Claim C9: a track that exists in a well-formed tracker state and
then receives zero associated detections for more than
`max_missed_frames` consecutive `update` calls is absent from the next
call's returned list. -/
theorem c9_missed_track_retired (sq : ℚ → ℚ) (cfg : ProcessorConfig)
    (s : KalmanBallTracker.State) (seq : List (List KalmanBallTracker.Detection))
    (r : KalmanBallTracker.State × List (List TrackingState)) (i : ℕ)
    (d2 : List KalmanBallTracker.Detection)
    (r2 : KalmanBallTracker.State × List TrackingState)
    (hwf : KalmanBallTracker.Wf s)
    (hi : i ∈ s.tracks.map TrackingState.track_id)
    (hrun : KalmanBallTracker.run sq cfg s seq = some r)
    (hlen : cfg.max_missed_frames < seq.length)
    (hmiss : ∀ (k : ℕ) (hk : k < seq.length)
        (rk : KalmanBallTracker.State × List (List TrackingState)),
      KalmanBallTracker.run sq cfg s (seq.take k) = some rk →
      i ∉ (KalmanBallTracker.callAssoc sq cfg rk.1 (seq.get ⟨k, hk⟩)).map Prod.fst)
    (hnext : KalmanBallTracker.update sq cfg r.1 d2 = some r2) :
    ∀ t ∈ r2.2, t.track_id ≠ i := by
  have hlti : i < s.next_track_id := by
    simp only [List.mem_map] at hi
    obtain ⟨u, hu, huid⟩ := hi
    rw [← huid]
    exact hwf.2.1 u hu
  have hrm := run_master sq cfg seq s r hrun
  have hnone : ∀ t ∈ r.1.tracks, t.track_id ≠ i := by
    intro t ht hid
    obtain ⟨u, hu, -, hldf⟩ := run_missed sq cfg i seq s r hwf hlti hrun hmiss t ht hid
    have hne : seq ≠ [] := by
      intro hcon
      rw [hcon] at hlen
      exact absurd hlen (by simp)
    have hbound := hrm.2.2.2.2 hne t ht
    have hfc := hrm.2.1
    have hldfle := hwf.2.2 u hu
    rw [hfc, hldf] at hbound
    omega
  have hm2 := update_master sq cfg r.1 d2 r2 hnext
  intro t ht hid
  rw [hm2.1] at ht
  rcases hm2.2.2.2.2.1 t ht with ⟨u, hu, huid, -⟩ | ⟨hge, -, -⟩
  · exact hnone u hu (by rw [← huid, hid])
  · have : i < r.1.next_track_id := lt_of_lt_of_le hlti hrm.1
    rw [hid] at hge
    exact absurd this (not_lt.mpr hge)


theorem c9_missed_track_retired_witness :
    c9R2.2.all (fun t => decide (t.track_id ≠ 0)) = true := by
  have hu9 : KalmanBallTracker.update sqrtDemo cfg9 c9S [] = some (c9R.1, []) := by
    norm_num [KalmanBallTracker.update, KalmanBallTracker.predictTrack,
      KalmanBallTracker.associateDetections, KalmanBallTracker.assocCandidates,
      KalmanBallTracker.mahalanobisDistance, KalmanBallTracker.innovationCov,
      M2.inv?, M2.det, M2.pinv, M2.frobSq, M2.quadForm,
      KalmanBallTracker.greedyMatch, pySortBy, pyInsertBy, pyEnum, pyEnumFrom,
      KalmanBallTracker.updateTracksGo, KalmanBallTracker.kalmanCorrect,
      KalmanBallTracker.pht, KalmanBallTracker.mul42, KalmanBallTracker.apply42,
      KalmanBallTracker.iMinusKH, M4.mul, M4.transpose, M4.add, M4.diag,
      KalmanBallTracker.Fmat, KalmanBallTracker.Qmat, KalmanBallTracker.createNewTracksGo,
      KalmanBallTracker.cleanupTracks, KalmanBallTracker.updateConfidenceStep,
      cfg9, defaultConfig, sqrtDemo, List.flatMap_cons, List.flatMap_nil,
      List.filterMap_cons, List.filterMap_nil, List.filter_cons, List.filter_nil,
      List.get?, c9S, c9R]
    try simp
    try norm_num
    try simp
    try norm_num
  have h1 : KalmanBallTracker.run sqrtDemo cfg9 c9S [[]] = some c9R := by
    simp only [KalmanBallTracker.run, hu9, c9R]
  have h2 : KalmanBallTracker.update sqrtDemo cfg9 c9R.1 [] = some c9R2 := by
    norm_num [KalmanBallTracker.update, KalmanBallTracker.associateDetections,
      KalmanBallTracker.assocCandidates, KalmanBallTracker.greedyMatch,
      pySortBy, pyEnum, pyEnumFrom, KalmanBallTracker.updateTracksGo,
      KalmanBallTracker.createNewTracksGo, KalmanBallTracker.cleanupTracks,
      cfg9, defaultConfig, List.flatMap_nil, List.filterMap_nil, c9R, c9R2]
  have hwf : KalmanBallTracker.Wf c9S := by
    refine ⟨?_, ?_, ?_⟩ <;> simp [KalmanBallTracker.Wf, c9S]
  have hi : 0 ∈ c9S.tracks.map TrackingState.track_id := by simp [c9S]
  have hlen : cfg9.max_missed_frames < ([[]] : List (List KalmanBallTracker.Detection)).length := by
    norm_num [cfg9, defaultConfig]
  have hmiss : ∀ (k : ℕ) (hk : k < ([[]] : List (List KalmanBallTracker.Detection)).length)
      (rk : KalmanBallTracker.State × List (List TrackingState)),
      KalmanBallTracker.run sqrtDemo cfg9 c9S (([[]] : List (List KalmanBallTracker.Detection)).take k) = some rk →
      0 ∉ (KalmanBallTracker.callAssoc sqrtDemo cfg9 rk.1
        (([[]] : List (List KalmanBallTracker.Detection)).get ⟨k, hk⟩)).map Prod.fst := by
    intro k hk rk hrk
    simp only [List.length_cons, List.length_nil] at hk
    have hk0 : k = 0 := by omega
    subst hk0
    simp only [List.take_zero, KalmanBallTracker.run, Option.some_inj] at hrk
    subst hrk
    simp [KalmanBallTracker.callAssoc, KalmanBallTracker.associateDetections,
      KalmanBallTracker.assocCandidates, pyEnum, pyEnumFrom,
      KalmanBallTracker.greedyMatch, pySortBy, List.get, c9S]
  have h := c9_missed_track_retired sqrtDemo cfg9 c9S [[]] c9R 0 [] c9R2
    hwf hi h1 hlen hmiss h2
  rw [List.all_eq_true]
  intro t ht
  exact decide_eq_true (h t ht)


theorem c10_track_ids_unique_monotone_witness :
    (c10SB.tracks.map TrackingState.track_id).Nodup ∧
    c10SA.next_track_id ≤ c10SB.next_track_id ∧
    (∀ t ∈ c10SB.tracks, t.track_id < c10SB.next_track_id) ∧
    (∀ t ∈ c10SB.tracks, t.track_id ∉ c10SA.tracks.map TrackingState.track_id →
      c10SA.next_track_id ≤ t.track_id) := by
  have huA : KalmanBallTracker.update sqrtDemo defaultConfig KalmanBallTracker.init
      [(0, 0, 9/10)] = some (c10SA, [c10TrackA]) := by
    norm_num [KalmanBallTracker.update, KalmanBallTracker.predictTrack,
      KalmanBallTracker.associateDetections, KalmanBallTracker.assocCandidates,
      KalmanBallTracker.mahalanobisDistance, KalmanBallTracker.innovationCov,
      M2.inv?, M2.det, M2.pinv, M2.frobSq, M2.quadForm,
      KalmanBallTracker.greedyMatch, pySortBy, pyInsertBy, pyEnum, pyEnumFrom,
      KalmanBallTracker.updateTracksGo, KalmanBallTracker.kalmanCorrect,
      KalmanBallTracker.pht, KalmanBallTracker.mul42, KalmanBallTracker.apply42,
      KalmanBallTracker.iMinusKH, M4.mul, M4.transpose, M4.add, M4.diag,
      KalmanBallTracker.Fmat, KalmanBallTracker.Qmat, KalmanBallTracker.createNewTracksGo,
      KalmanBallTracker.cleanupTracks, KalmanBallTracker.updateConfidenceStep,
      KalmanBallTracker.init, defaultConfig, sqrtDemo, List.flatMap_cons, List.flatMap_nil,
      List.filterMap_cons, List.filterMap_nil, List.filter_cons, List.filter_nil,
      List.get?, c10SA, c10TrackA]
    try simp
    try norm_num
    try simp
    try norm_num
  have hA : KalmanBallTracker.run sqrtDemo defaultConfig KalmanBallTracker.init
      [[(0, 0, 9/10)]] = some (c10SA, [[c10TrackA]]) := by
    simp only [KalmanBallTracker.run, huA]
  have huB : KalmanBallTracker.update sqrtDemo defaultConfig c10SA [] =
      some (c10SB, [c10TrackB]) := by
    norm_num [KalmanBallTracker.update, KalmanBallTracker.predictTrack,
      KalmanBallTracker.associateDetections, KalmanBallTracker.assocCandidates,
      KalmanBallTracker.mahalanobisDistance, KalmanBallTracker.innovationCov,
      M2.inv?, M2.det, M2.pinv, M2.frobSq, M2.quadForm,
      KalmanBallTracker.greedyMatch, pySortBy, pyInsertBy, pyEnum, pyEnumFrom,
      KalmanBallTracker.updateTracksGo, KalmanBallTracker.kalmanCorrect,
      KalmanBallTracker.pht, KalmanBallTracker.mul42, KalmanBallTracker.apply42,
      KalmanBallTracker.iMinusKH, M4.mul, M4.transpose, M4.add, M4.diag,
      KalmanBallTracker.Fmat, KalmanBallTracker.Qmat, KalmanBallTracker.createNewTracksGo,
      KalmanBallTracker.cleanupTracks, KalmanBallTracker.updateConfidenceStep,
      defaultConfig, sqrtDemo, List.flatMap_cons, List.flatMap_nil,
      List.filterMap_cons, List.filterMap_nil, List.filter_cons, List.filter_nil,
      List.get?, c10SA, c10TrackA, c10SB, c10TrackB]
    try simp
    try norm_num
    try simp
    try norm_num
  have hB : KalmanBallTracker.run sqrtDemo defaultConfig c10SA [[]] =
      some (c10SB, [[c10TrackB]]) := by
    simp only [KalmanBallTracker.run, huB]
  exact c10_track_ids_unique_monotone sqrtDemo defaultConfig [[(0, 0, 9/10)]] [[]]
    (c10SA, [[c10TrackA]]) (c10SB, [[c10TrackB]]) hA hB
